import Mathlib

/-!
Verification of the Stone interpreter (Ryooooooga/stone).

This file is a shallow embedding, in Lean 4, of the core of the Stone
tree-walking interpreter: the lexer (`src/stone/Lexer.hpp`), the token model
(`src/stone/Token.hpp`, `src/stone/Token.def.hpp`), the recursive-descent
parser (`src/stone/Parser.hpp`), and the evaluator with its environment chain
and runtime object model (`src/stone/Interpreter.hpp`).

Modelling conventions:
* the source text is a `List Char`; `std::string::operator[]` reads the
  character at an index, yielding the NUL character at the index equal to the
  length (guaranteed by C++) — reads strictly past that point are undefined
  behavior in C++, idealized here as also yielding NUL (this is only reachable
  in the line-comment loop, which is the known runaway loop);
* C++ `int` is modelled as unbounded `Int`; signed overflow is undefined
  behavior in C++ and no claim here depends on it; division and remainder use
  `Int.tdiv`/`Int.tmod`, which truncate toward zero exactly like C++;
* loops and recursion that the C++ performs without a structural bound are
  given an explicit fuel argument; exhausting fuel models non-termination
  (or unbounded recursion) and is distinguished from thrown exceptions;
* undefined behavior (null-pointer dereference, division by zero, running
  off the source buffer) is a distinguished `crash`/`hang` outcome, which is
  not an `EvaluateException`.

The provided snapshot of the repository is internally inconsistent: the
parser matches on `TokenKind::keyword_class` and `TokenKind::keyword_extends`
and the repository's own `main` exercises classes, arrays and strings, yet
`Token.def.hpp` lists neither keyword nor the `[`/`]` punctuators, and
`Lexer.hpp` has no rule for string literals, while `Parser.hpp` has no rule
for array literals or indexing even though the corresponding AST nodes and
their evaluation exist.  Those missing pieces are modelled from the spec and
each such definition is marked `Modelled from the spec:` in its doc comment.
Everything else is translated from the source files.
-/

set_option maxRecDepth 4000

namespace Stone

/-! ## Tokens (Token.hpp / Token.def.hpp) -/

/-- Token kinds, from the expansion of `Token.def.hpp` into the `TokenKind`
enumeration of `Token.hpp`.  The kinds `keyword_class` and `keyword_extends`
are referenced by `Parser.hpp` (`parseTopLevelStatement`,
`parseClassStatement`) and the kinds `leftBracket`/`rightBracket` are required
by the spec's punctuator list; the provided `Token.def.hpp` variant omits
their defining lines (see `keywordKind` and `punctuators`). -/
inductive TokenKind where
  | endOfFile
  | endOfLine
  | identifier
  | integer
  | string
  | keyword_if
  | keyword_else
  | keyword_while
  | keyword_def
  | keyword_fun
  | keyword_return
  | keyword_class
  | keyword_extends
  | plus
  | minus
  | star
  | slash
  | percent
  | assign
  | equal
  | notEqual
  | lesserThan
  | lesserEqual
  | greaterThan
  | greaterEqual
  | period
  | comma
  | semicolon
  | leftParen
  | rightParen
  | leftBrace
  | rightBrace
  | leftBracket
  | rightBracket
  deriving DecidableEq, Repr

/-- A token: kind, literal source text, 1-based line number, and the
kind-specific payloads (`m_integer`, `m_string` of `Token.hpp`, defaulted
like the value-initialized members of the C++ constructors). -/
structure Token where
  kind : TokenKind
  text : List Char
  line : Nat
  integerValue : Int := 0
  stringValue : List Char := []
  deriving DecidableEq, Repr

/-! ## Lexer (Lexer.hpp) -/

/-- The NUL character, which `Lexer::read` treats as the end of input. -/
def nulChar : Char := Char.ofNat 0

/-- Read the source character at `pos`: `m_source[m_pos]` on a
`std::string`, which yields NUL at `pos = length` (reads past that are
undefined behavior in C++, idealized as NUL; only the line-comment loop can
reach them). -/
def chAt (src : List Char) (pos : Nat) : Char :=
  src.getD pos nulChar

/-- The `isSpace` lambda of `Lexer::read`: space, tab or carriage return. -/
def isSpace (c : Char) : Bool :=
  c == ' ' || c == '\t' || c == '\r'

/-- The `isDigit` lambda of `Lexer::read`. -/
def isDigit (c : Char) : Bool :=
  '0' ≤ c && c ≤ '9'

/-- The `isLetter` lambda of `Lexer::read`: ASCII letter or underscore. -/
def isLetter (c : Char) : Bool :=
  ('A' ≤ c && c ≤ 'Z') || ('a' ≤ c && c ≤ 'z') || c == '_'

/-- The `isLetterOrDigit` lambda of `Lexer::read`. -/
def isLetterOrDigit (c : Char) : Bool :=
  isLetter c || isDigit c

/-- Advance `pos` while the predicate holds, as the maximal-run loops of
`Lexer::read` do.  The C++ loops are unbounded but always stop at or before
the end of the buffer, because the character read there is NUL, which no
predicate of the lexer accepts; callers pass `src.length + 1` fuel, which is
always sufficient for a start position inside the buffer. -/
def scanWhile (p : Char → Bool) (src : List Char) : Nat → Nat → Nat
  | 0, pos => pos
  | fuel + 1, pos => if p (chAt src pos) then scanWhile p src fuel (pos + 1) else pos

/-- The line-comment loop of `Lexer::read`:
`while (m_source[m_pos] != '\n') m_pos++;`.  The loop tests only for a
newline — never for the end of the input — so on a source whose final line
is a `//` comment with no terminating newline it runs off the end of the
buffer (undefined behavior in C++).  `none` models that runaway. -/
def skipLineComment (src : List Char) : Nat → Nat → Option Nat
  | 0, _ => none
  | fuel + 1, pos =>
    if chAt src pos = '\n' then some pos else skipLineComment src fuel (pos + 1)

/-- The prefix test `m_source.compare(pos, n, text) == 0` used for the
comment opener and for punctuators. -/
def isPrefixAt (text : List Char) (src : List Char) (pos : Nat) : Bool :=
  (src.drop pos).take text.length == text

/-- The keyword table from the provided `Token.def.hpp`
(`STONE_TOKEN_KEYWORD1` lines): `if`, `else`, `while`, `def`, `fun`,
`return`; any other lexeme is an identifier. -/
def keywordKindSrc (text : List Char) : TokenKind :=
  if text = "if".data then .keyword_if
  else if text = "else".data then .keyword_else
  else if text = "while".data then .keyword_while
  else if text = "def".data then .keyword_def
  else if text = "fun".data then .keyword_fun
  else if text = "return".data then .keyword_return
  else .identifier

/-- Modelled from the spec: the provided `Token.def.hpp` variant is missing
the `class` and `extends` keyword lines, although `Parser.hpp` matches on
`TokenKind::keyword_class`/`keyword_extends` and the repository's own main
program uses both; the spec lists both among the reserved words.  `new` is
deliberately not added: the parser accepts only an `identifier` token after
`.`, so `Position.new` requires `new` to lex as an identifier, as the spec's
design notes (§9) state. -/
def keywordKind (text : List Char) : TokenKind :=
  if text = "class".data then .keyword_class
  else if text = "extends".data then .keyword_extends
  else keywordKindSrc text

/-- The punctuator table from the provided `Token.def.hpp`
(`STONE_TOKEN_PUNCTUATOR` lines), listed in the descending lexicographic
order in which the `boost::container::flat_map<_, _, std::greater<>>` of
`Lexer::read` iterates it, so that `>=`, `==`, `<=` are tried before their
single-character prefixes. -/
def punctuatorsSrc : List (List Char × TokenKind) :=
  [ ("\x7d".data, .rightBrace)
  , ("\x7b".data, .leftBrace)
  , (">=".data, .greaterEqual)
  , (">".data, .greaterThan)
  , ("==".data, .equal)
  , ("=".data, .assign)
  , ("<=".data, .lesserEqual)
  , ("<".data, .lesserThan)
  , (";".data, .semicolon)
  , ("/".data, .slash)
  , (".".data, .period)
  , ("-".data, .minus)
  , (",".data, .comma)
  , ("+".data, .plus)
  , ("*".data, .star)
  , (")".data, .rightParen)
  , ("(".data, .leftParen)
  , ("%".data, .percent)
  , ("!=".data, .notEqual)
  ]

/-- Modelled from the spec: the punctuator list of the provided
`Token.def.hpp` is missing the `[` and `]` lines that the spec's punctuator
table requires (and that the repository's array syntax needs); they are
inserted at their descending-order positions. -/
def punctuators : List (List Char × TokenKind) :=
  [ ("\x7d".data, .rightBrace)
  , ("\x7b".data, .leftBrace)
  , ("]".data, .rightBracket)
  , ("[".data, .leftBracket)
  ] ++ punctuatorsSrc.drop 2

/-- The punctuator loop of `Lexer::read`: the first table entry that is a
prefix of the source at `pos`. -/
def findPunct (table : List (List Char × TokenKind)) (src : List Char) (pos : Nat) :
    Option (List Char × TokenKind) :=
  match table with
  | [] => none
  | (text, kind) :: rest =>
    if isPrefixAt text src pos then some (text, kind) else findPunct rest src pos

/-- Decimal value of a digit run, as `std::stoi` computes it in
`Lexer::read` (the run is non-empty and all digits by construction). -/
def digitsToInt (text : List Char) : Int :=
  text.foldl (fun acc c => acc * 10 + Int.ofNat (c.toNat - 48)) 0

/-- Outcome of one `Lexer::read` call: a token together with the new
position and line, a `ParseException` for an unexpected character, or the
runaway of the line-comment loop (undefined behavior in C++). -/
inductive LexResult where
  | tok (t : Token) (pos : Nat) (line : Nat)
  | err (line : Nat)
  | hang
  deriving DecidableEq, Repr

/-- Modelled from the spec: the provided `Lexer.hpp` has no scanning rule
for string literals even though `TokenKind::string` exists and
`Parser::parseStringExpression` consumes such tokens.  Per the spec (§3,
§6), a string literal is delimited by `"` and its raw contents are accepted
with no escape sequences; an unterminated literal is a lexical error. -/
def lexString (src : List Char) (pos line : Nat) : LexResult :=
  let stop := scanWhile (fun c => !(c == '"' || c == nulChar)) src (src.length + 1) (pos + 1)
  if chAt src stop = '"' then
    .tok { kind := .string
         , text := (src.drop pos).take (stop + 1 - pos)
         , line := line
         , stringValue := (src.drop (pos + 1)).take (stop - (pos + 1)) } (stop + 1) line
  else
    .err line

/-- One call of `Lexer::read` (Lexer.hpp), scanning at `pos` on `line`:
skip spaces, skip a `//` comment, then emit end-of-file on NUL, end-of-line
on `\n` (carrying the pre-increment line), a keyword/identifier for a
letter run, an integer token for a digit run, a string literal (modelled,
see `lexString`), or the longest matching punctuator; otherwise the
unexpected-character `ParseException`.  `fuel` bounds only the line-comment
loop, the one loop of the lexer with no built-in stop at the end of the
input. -/
def lexRead (src : List Char) (fuel : Nat) (pos line : Nat) : LexResult :=
  let pos := scanWhile isSpace src (src.length + 1) pos
  let afterComment : Option Nat :=
    if isPrefixAt "//".data src pos then skipLineComment src fuel (pos + 2) else some pos
  match afterComment with
  | none => .hang
  | some pos =>
    let start := pos
    let c := chAt src pos
    if c = nulChar then
      .tok { kind := .endOfFile, text := "[EOF]".data, line := line } pos line
    else if c = '\n' then
      .tok { kind := .endOfLine, text := "[EOL]".data, line := line } (pos + 1) (line + 1)
    else if isLetter c then
      let stop := scanWhile isLetterOrDigit src (src.length + 1) pos
      let text := (src.drop start).take (stop - start)
      .tok { kind := keywordKind text, text := text, line := line } stop line
    else if isDigit c then
      let stop := scanWhile isDigit src (src.length + 1) pos
      let text := (src.drop start).take (stop - start)
      .tok { kind := .integer, text := text, line := line
           , integerValue := digitsToInt text } stop line
    else if c = '"' then
      lexString src pos line
    else
      match findPunct punctuators src pos with
      | some (text, kind) => .tok { kind := kind, text := text, line := line } (pos + text.length) line
      | none => .err line

/-- Outcome of lexing a whole source: the token sequence (ending in the
end-of-file token), a lexical error, or the comment-loop runaway. -/
inductive LexOutcome where
  | toks (ts : List Token)
  | err
  | hang
  deriving DecidableEq, Repr

/-- Repeated `Lexer::read` from `(pos, line)` until the end-of-file token,
as `TokenStream::fillQueue` performs it. -/
def lexFrom (src : List Char) : Nat → Nat → Nat → LexOutcome
  | 0, _, _ => .hang
  | fuel + 1, pos, line =>
    match lexRead src fuel pos line with
    | .hang => .hang
    | .err _ => .err
    | .tok t p l =>
      if t.kind = .endOfFile then .toks [t]
      else
        match lexFrom src fuel p l with
        | .toks ts => .toks (t :: ts)
        | .err => .err
        | .hang => .hang

/-- Lex a complete source string starting at position 0, line 1
(the initial `Lexer` state). -/
def lexAll (src : String) (fuel : Nat) : LexOutcome :=
  lexFrom src.data fuel 0 1

end Stone

namespace Stone

/-! ## AST (Node.hpp / Node.def.hpp)

Node variants from `Node.def.hpp` with the children given by the accessors
of `Node.hpp`.  Line numbers are omitted: they feed only the error messages,
which no claim concerns.  Parameter lists are the lists of parameter names,
argument lists the lists of argument expressions. -/

/-- Binary operators, from `STONE_BINARY_OPERATOR` of `Node.def.hpp`. -/
inductive BinaryOperator where
  | addition
  | subtraction
  | multiplication
  | division
  | modulo
  | equal
  | notEqual
  | lesserThan
  | lesserEqual
  | greaterThan
  | greaterEqual
  | assign
  deriving DecidableEq, Repr

/-- Unary operators, from `STONE_UNARY_OPERATOR` of `Node.def.hpp`. -/
inductive UnaryOperator where
  | negation
  deriving DecidableEq, Repr

mutual

/-- Expression nodes (`STONE_EXPRESSION_NODE` of `Node.def.hpp`). -/
inductive Expr where
  | binary (operation : BinaryOperator) (left right : Expr)
  | unary (operation : UnaryOperator) (operand : Expr)
  | call (callee : Expr) (arguments : List Expr)
  | arrayIndex (operand index : Expr)
  | memberAccess (operand : Expr) (memberName : String)
  | closure (parameters : List String) (body : Stmt)
  | array (elements : List Expr)
  | identifier (name : String)
  | integer (value : Int)
  | string (value : String)

/-- Statement nodes (`STONE_STATEMENT_NODE` of `Node.def.hpp`); `expr` wraps
an expression used as a statement. -/
inductive Stmt where
  | ifS (condition : Expr) (thenBranch : Stmt) (otherwise : Option Stmt)
  | whileS (condition : Expr) (body : Stmt)
  | compound (children : List Stmt)
  | procedure (name : String) (parameters : List String) (body : Stmt)
  | classS (name : String) (superName : Option String) (body : Stmt)
  | expr (e : Expr)

end

/-! ## Parser (Parser.hpp)

Each `parseX` mirrors the member function of the same name.  The token
stream is the lexed token list (ending in the end-of-file token, which the
C++ `TokenStream` repeats indefinitely — modelled by `peekT`'s default).
A `ParseException` carries only the line number here (the message strings
play no role in any claim).  The C++ parser terminates on every input; the
`fuel` argument is an artifact of the embedding, and exhausting it yields
the error at line 0, which no successful-parse statement can confuse with a
real outcome. -/

/-- A parse error (`ParseException`), reduced to its line number. -/
structure PErr where
  line : Nat
  deriving DecidableEq, Repr

/-- The token `TokenStream::peek(0)` yields: the head of the remaining
list; the stream never runs dry because the lexer repeats the end-of-file
token, hence the default. -/
def peekT (ts : List Token) : Token :=
  ts.headD { kind := .endOfFile, text := "[EOF]".data, line := 0 }

/-- Mirror of `Parser::matchToken`: fail unless the next token has the expected kind,
otherwise consume and return it. -/
def matchToken (expected : TokenKind) (ts : List Token) :
    Except PErr (Token × List Token) :=
  let t := peekT ts
  if t.kind = expected then .ok (t, ts.tail) else .error ⟨t.line⟩

/-- Mirror of `Parser::consumeTokenIf`: consume the next token when it has the given
kind. -/
def consumeTokenIf (acceptable : TokenKind) (ts : List Token) :
    Option Token × List Token :=
  if (peekT ts).kind = acceptable then (some (peekT ts), ts.tail) else (none, ts)

/-- The operator table lambda of `Parser::parseBinaryExpression`: operator,
precedence and right-associativity per token kind, with the C++ default
`(BinaryOperator{}, -1, false)` (a value-initialized `BinaryOperator` is its
first enumerator). -/
def opInfo (kind : TokenKind) : BinaryOperator × Int × Bool :=
  match kind with
  | .star => (.multiplication, 5, false)
  | .slash => (.division, 5, false)
  | .percent => (.modulo, 5, false)
  | .plus => (.addition, 4, false)
  | .minus => (.subtraction, 4, false)
  | .lesserThan => (.lesserThan, 3, false)
  | .lesserEqual => (.lesserEqual, 3, false)
  | .greaterThan => (.greaterThan, 3, false)
  | .greaterEqual => (.greaterEqual, 3, false)
  | .equal => (.equal, 2, false)
  | .notEqual => (.notEqual, 2, false)
  | .assign => (.assign, 1, true)
  | _ => (.addition, -1, false)

mutual

/-- Mirror of `Parser::parseProgram`: a top-level statement, then separated top-level
statements until end-of-file; null statements are dropped (the `addChild`
guard). -/
def parseProgram (fuel : Nat) (ts : List Token) :
    Except PErr (List Stmt × List Token) :=
  match fuel with
  | 0 => .error ⟨0⟩
  | fuel + 1 =>
    match parseTopLevelStatement fuel ts with
    | .error e => .error e
    | .ok (first, ts) => parseProgramLoop fuel first.toList ts

/-- The `while (peek != endOfFile)` loop of `Parser::parseProgram`:
separator (end-of-line or `;`), then a top-level statement. -/
def parseProgramLoop (fuel : Nat) (acc : List Stmt) (ts : List Token) :
    Except PErr (List Stmt × List Token) :=
  match fuel with
  | 0 => .error ⟨0⟩
  | fuel + 1 =>
    if (peekT ts).kind = .endOfFile then .ok (acc, ts)
    else
      let sep :=
        match consumeTokenIf .endOfLine ts with
        | (some _, ts) => Except.ok ts
        | (none, ts) =>
          match matchToken .semicolon ts with
          | .error e => Except.error e
          | .ok (_, ts) => Except.ok ts
      match sep with
      | .error e => .error e
      | .ok ts =>
        match parseTopLevelStatement fuel ts with
        | .error e => .error e
        | .ok (st, ts) => parseProgramLoop fuel (acc ++ st.toList) ts

/-- Mirror of `Parser::parseTopLevelStatement`: a class statement on `class`,
otherwise a statement. -/
def parseTopLevelStatement (fuel : Nat) (ts : List Token) :
    Except PErr (Option Stmt × List Token) :=
  match fuel with
  | 0 => .error ⟨0⟩
  | fuel + 1 =>
    match (peekT ts).kind with
    | .keyword_class =>
      match parseClassStatement fuel ts with
      | .error e => .error e
      | .ok (st, ts) => .ok (some st, ts)
    | _ => parseStatement fuel ts

/-- Mirror of `Parser::parseStatement`: procedure on `def`, if, while, compound on
`{`, the null statement (no node) on end-of-file/end-of-line/`;`/`}`,
otherwise an expression. -/
def parseStatement (fuel : Nat) (ts : List Token) :
    Except PErr (Option Stmt × List Token) :=
  match fuel with
  | 0 => .error ⟨0⟩
  | fuel + 1 =>
    match (peekT ts).kind with
    | .keyword_def =>
      match parseProcedureStatement fuel ts with
      | .error e => .error e
      | .ok (st, ts) => .ok (some st, ts)
    | .keyword_if =>
      match parseIfStatement fuel ts with
      | .error e => .error e
      | .ok (st, ts) => .ok (some st, ts)
    | .keyword_while =>
      match parseWhileStatement fuel ts with
      | .error e => .error e
      | .ok (st, ts) => .ok (some st, ts)
    | .leftBrace =>
      match parseCompoundStatement fuel ts with
      | .error e => .error e
      | .ok (st, ts) => .ok (some st, ts)
    | .endOfFile => .ok (none, ts)
    | .endOfLine => .ok (none, ts)
    | .semicolon => .ok (none, ts)
    | .rightBrace => .ok (none, ts)
    | _ =>
      match parseExpression fuel ts with
      | .error e => .error e
      | .ok (e, ts) => .ok (some (.expr e), ts)

/-- Mirror of `Parser::parseProcedureStatement`: `def` identifier parameter-list
compound-statement. -/
def parseProcedureStatement (fuel : Nat) (ts : List Token) :
    Except PErr (Stmt × List Token) :=
  match fuel with
  | 0 => .error ⟨0⟩
  | fuel + 1 =>
    match matchToken .keyword_def ts with
    | .error e => .error e
    | .ok (_, ts) =>
      match matchToken .identifier ts with
      | .error e => .error e
      | .ok (name, ts) =>
        match parseParameterList fuel ts with
        | .error e => .error e
        | .ok (params, ts) =>
          match parseCompoundStatement fuel ts with
          | .error e => .error e
          | .ok (body, ts) => .ok (.procedure (String.mk name.text) params body, ts)

/-- Mirror of `Parser::parseClassStatement`: `class` identifier
(`extends` identifier)? compound-statement. -/
def parseClassStatement (fuel : Nat) (ts : List Token) :
    Except PErr (Stmt × List Token) :=
  match fuel with
  | 0 => .error ⟨0⟩
  | fuel + 1 =>
    match matchToken .keyword_class ts with
    | .error e => .error e
    | .ok (_, ts) =>
      match matchToken .identifier ts with
      | .error e => .error e
      | .ok (name, ts) =>
        let super :=
          match consumeTokenIf .keyword_extends ts with
          | (some _, ts) =>
            match matchToken .identifier ts with
            | .error e => Except.error e
            | .ok (s, ts) => Except.ok (some (String.mk s.text), ts)
          | (none, ts) => Except.ok ((none : Option String), ts)
        match super with
        | .error e => .error e
        | .ok (superName, ts) =>
          match parseCompoundStatement fuel ts with
          | .error e => .error e
          | .ok (body, ts) => .ok (.classS (String.mk name.text) superName body, ts)

/-- Mirror of `Parser::parseParameterList`: `(` (identifier (`,` identifier)*)? `)`. -/
def parseParameterList (fuel : Nat) (ts : List Token) :
    Except PErr (List String × List Token) :=
  match fuel with
  | 0 => .error ⟨0⟩
  | fuel + 1 =>
    match matchToken .leftParen ts with
    | .error e => .error e
    | .ok (_, ts) =>
      match (peekT ts).kind with
      | .rightParen =>
        match matchToken .rightParen ts with
        | .error e => .error e
        | .ok (_, ts) => .ok ([], ts)
      | _ =>
        match matchToken .identifier ts with
        | .error e => .error e
        | .ok (p, ts) =>
          match parseParameterLoop fuel [String.mk p.text] ts with
          | .error e => .error e
          | .ok (params, ts) =>
            match matchToken .rightParen ts with
            | .error e => .error e
            | .ok (_, ts) => .ok (params, ts)

/-- The `(',' parameter)*` loop of `Parser::parseParameterList`. -/
def parseParameterLoop (fuel : Nat) (acc : List String) (ts : List Token) :
    Except PErr (List String × List Token) :=
  match fuel with
  | 0 => .error ⟨0⟩
  | fuel + 1 =>
    match consumeTokenIf .comma ts with
    | (none, ts) => .ok (acc, ts)
    | (some _, ts) =>
      match matchToken .identifier ts with
      | .error e => .error e
      | .ok (p, ts) => parseParameterLoop fuel (acc ++ [String.mk p.text]) ts

/-- Mirror of `Parser::parseIfStatement`: `if` expression compound-statement, with an
optional `else` followed by an if-statement or a compound-statement. -/
def parseIfStatement (fuel : Nat) (ts : List Token) :
    Except PErr (Stmt × List Token) :=
  match fuel with
  | 0 => .error ⟨0⟩
  | fuel + 1 =>
    match matchToken .keyword_if ts with
    | .error e => .error e
    | .ok (_, ts) =>
      match parseExpression fuel ts with
      | .error e => .error e
      | .ok (condition, ts) =>
        match parseCompoundStatement fuel ts with
        | .error e => .error e
        | .ok (thenBranch, ts) =>
          match consumeTokenIf .keyword_else ts with
          | (none, ts) => .ok (.ifS condition thenBranch none, ts)
          | (some _, ts) =>
            let otherwise :=
              match (peekT ts).kind with
              | .keyword_if => parseIfStatement fuel ts
              | _ => parseCompoundStatement fuel ts
            match otherwise with
            | .error e => .error e
            | .ok (o, ts) => .ok (.ifS condition thenBranch (some o), ts)

/-- Mirror of `Parser::parseWhileStatement`: `while` expression compound-statement. -/
def parseWhileStatement (fuel : Nat) (ts : List Token) :
    Except PErr (Stmt × List Token) :=
  match fuel with
  | 0 => .error ⟨0⟩
  | fuel + 1 =>
    match matchToken .keyword_while ts with
    | .error e => .error e
    | .ok (_, ts) =>
      match parseExpression fuel ts with
      | .error e => .error e
      | .ok (condition, ts) =>
        match parseCompoundStatement fuel ts with
        | .error e => .error e
        | .ok (body, ts) => .ok (.whileS condition body, ts)

/-- Mirror of `Parser::parseCompoundStatement`: `{` statement (separator statement)*
`}`; null statements are dropped by the `addChild` guard. -/
def parseCompoundStatement (fuel : Nat) (ts : List Token) :
    Except PErr (Stmt × List Token) :=
  match fuel with
  | 0 => .error ⟨0⟩
  | fuel + 1 =>
    match matchToken .leftBrace ts with
    | .error e => .error e
    | .ok (_, ts) =>
      match parseStatement fuel ts with
      | .error e => .error e
      | .ok (first, ts) => parseCompoundLoop fuel first.toList ts

/-- The `while (!consumeTokenIf(rightBrace))` loop of
`Parser::parseCompoundStatement`. -/
def parseCompoundLoop (fuel : Nat) (acc : List Stmt) (ts : List Token) :
    Except PErr (Stmt × List Token) :=
  match fuel with
  | 0 => .error ⟨0⟩
  | fuel + 1 =>
    match consumeTokenIf .rightBrace ts with
    | (some _, ts) => .ok (.compound acc, ts)
    | (none, ts) =>
      let sep :=
        match consumeTokenIf .endOfLine ts with
        | (some _, ts) => Except.ok ts
        | (none, ts) =>
          match matchToken .semicolon ts with
          | .error e => Except.error e
          | .ok (_, ts) => Except.ok ts
      match sep with
      | .error e => .error e
      | .ok ts =>
        match parseStatement fuel ts with
        | .error e => .error e
        | .ok (st, ts) => parseCompoundLoop fuel (acc ++ st.toList) ts

/-- Mirror of `Parser::parseExpression`: a binary expression with minimum level 0. -/
def parseExpression (fuel : Nat) (ts : List Token) :
    Except PErr (Expr × List Token) :=
  match fuel with
  | 0 => .error ⟨0⟩
  | fuel + 1 => parseBinaryExpression fuel 0 ts

/-- Mirror of `Parser::parseBinaryExpression`: precedence climbing — a unary
expression followed by the operator loop. -/
def parseBinaryExpression (fuel : Nat) (minLevel : Int) (ts : List Token) :
    Except PErr (Expr × List Token) :=
  match fuel with
  | 0 => .error ⟨0⟩
  | fuel + 1 =>
    match parseUnaryExpression fuel ts with
    | .error e => .error e
    | .ok (left, ts) => parseBinaryLoop fuel minLevel left ts

/-- The `while (true)` loop of `Parser::parseBinaryExpression`: stop when
the next token's precedence is below `minLevel` (non-operators have
precedence −1); otherwise consume the operator and parse the right-hand
side with `prec + (assoc ? 0 : 1)`. -/
def parseBinaryLoop (fuel : Nat) (minLevel : Int) (left : Expr) (ts : List Token) :
    Except PErr (Expr × List Token) :=
  match fuel with
  | 0 => .error ⟨0⟩
  | fuel + 1 =>
    let (operation, prec, assoc) := opInfo (peekT ts).kind
    if prec < minLevel then .ok (left, ts)
    else
      let ts := ts.tail
      match parseBinaryExpression fuel (prec + (if assoc then 0 else 1)) ts with
      | .error e => .error e
      | .ok (right, ts) => parseBinaryLoop fuel minLevel (.binary operation left right) ts

/-- Mirror of `Parser::parseUnaryExpression`: a negative expression on `-`, otherwise
a postfix expression. -/
def parseUnaryExpression (fuel : Nat) (ts : List Token) :
    Except PErr (Expr × List Token) :=
  match fuel with
  | 0 => .error ⟨0⟩
  | fuel + 1 =>
    match (peekT ts).kind with
    | .minus => parseNegativeExpression fuel ts
    | _ => parsePostfixExpression fuel ts

/-- Mirror of `Parser::parseNegativeExpression`: `-` postfix-expression. -/
def parseNegativeExpression (fuel : Nat) (ts : List Token) :
    Except PErr (Expr × List Token) :=
  match fuel with
  | 0 => .error ⟨0⟩
  | fuel + 1 =>
    match matchToken .minus ts with
    | .error e => .error e
    | .ok (_, ts) =>
      match parsePostfixExpression fuel ts with
      | .error e => .error e
      | .ok (operand, ts) => .ok (.unary .negation operand, ts)

/-- Mirror of `Parser::parsePostfixExpression`: a primary expression followed by the
postfix loop. -/
def parsePostfixExpression (fuel : Nat) (ts : List Token) :
    Except PErr (Expr × List Token) :=
  match fuel with
  | 0 => .error ⟨0⟩
  | fuel + 1 =>
    match parsePrimaryExpression fuel ts with
    | .error e => .error e
    | .ok (operand, ts) => parsePostfixLoop fuel operand ts

/-- The postfix loop of `Parser::parsePostfixExpression`: call postfixes on
`(`, member accesses on `.`, and (modelled, see `parseArrayIndexPostfix`)
index postfixes on `[`. -/
def parsePostfixLoop (fuel : Nat) (operand : Expr) (ts : List Token) :
    Except PErr (Expr × List Token) :=
  match fuel with
  | 0 => .error ⟨0⟩
  | fuel + 1 =>
    match (peekT ts).kind with
    | .leftParen =>
      match parseCallExpressionPostfix fuel operand ts with
      | .error e => .error e
      | .ok (operand, ts) => parsePostfixLoop fuel operand ts
    | .period =>
      match parseMemberAccessPostfix fuel operand ts with
      | .error e => .error e
      | .ok (operand, ts) => parsePostfixLoop fuel operand ts
    | .leftBracket =>
      match parseArrayIndexPostfix fuel operand ts with
      | .error e => .error e
      | .ok (operand, ts) => parsePostfixLoop fuel operand ts
    | _ => .ok (operand, ts)

/-- Mirror of `Parser::parseCallExpressionPostfix`: `(` (expression (`,`
expression)*)? `)` building a call node. -/
def parseCallExpressionPostfix (fuel : Nat) (operand : Expr) (ts : List Token) :
    Except PErr (Expr × List Token) :=
  match fuel with
  | 0 => .error ⟨0⟩
  | fuel + 1 =>
    match matchToken .leftParen ts with
    | .error e => .error e
    | .ok (_, ts) =>
      match (peekT ts).kind with
      | .rightParen =>
        match matchToken .rightParen ts with
        | .error e => .error e
        | .ok (_, ts) => .ok (.call operand [], ts)
      | _ =>
        match parseExpression fuel ts with
        | .error e => .error e
        | .ok (arg, ts) =>
          match parseArgumentLoop fuel [arg] ts with
          | .error e => .error e
          | .ok (args, ts) =>
            match matchToken .rightParen ts with
            | .error e => .error e
            | .ok (_, ts) => .ok (.call operand args, ts)

/-- The `(',' expression)*` loop of `Parser::parseCallExpressionPostfix`
(also used by the modelled array literal). -/
def parseArgumentLoop (fuel : Nat) (acc : List Expr) (ts : List Token) :
    Except PErr (List Expr × List Token) :=
  match fuel with
  | 0 => .error ⟨0⟩
  | fuel + 1 =>
    match consumeTokenIf .comma ts with
    | (none, ts) => .ok (acc, ts)
    | (some _, ts) =>
      match parseExpression fuel ts with
      | .error e => .error e
      | .ok (arg, ts) => parseArgumentLoop fuel (acc ++ [arg]) ts

/-- Mirror of `Parser::parseMemberAccessPostfix`: `.` identifier building a
member-access node (note: the member name is an `identifier` token, which
is how `Position.new` parses — `new` is not a keyword). -/
def parseMemberAccessPostfix (fuel : Nat) (operand : Expr) (ts : List Token) :
    Except PErr (Expr × List Token) :=
  match fuel with
  | 0 => .error ⟨0⟩
  | _ + 1 =>
    match matchToken .period ts with
    | .error e => .error e
    | .ok (_, ts) =>
      match matchToken .identifier ts with
      | .error e => .error e
      | .ok (member, ts) => .ok (.memberAccess operand (String.mk member.text), ts)

/-- Modelled from the spec: the provided `Parser.hpp` has no postfix rule
for `[`, although `ArrayIndexExpressionNode` exists and the interpreter
evaluates it; the spec's grammar (§4.3) gives `postfix = primary ( … | '['
expr ']' )*`. -/
def parseArrayIndexPostfix (fuel : Nat) (operand : Expr) (ts : List Token) :
    Except PErr (Expr × List Token) :=
  match fuel with
  | 0 => .error ⟨0⟩
  | fuel + 1 =>
    match matchToken .leftBracket ts with
    | .error e => .error e
    | .ok (_, ts) =>
      match parseExpression fuel ts with
      | .error e => .error e
      | .ok (index, ts) =>
        match matchToken .rightBracket ts with
        | .error e => .error e
        | .ok (_, ts) => .ok (.arrayIndex operand index, ts)

/-- Mirror of `Parser::parsePrimaryExpression`: parenthesized expression, closure on
`fun`, identifier, integer literal, string literal, or (modelled, see
`parseArrayExpression`) an array literal on `[`; anything else is a parse
error. -/
def parsePrimaryExpression (fuel : Nat) (ts : List Token) :
    Except PErr (Expr × List Token) :=
  match fuel with
  | 0 => .error ⟨0⟩
  | fuel + 1 =>
    match (peekT ts).kind with
    | .leftParen => parseParenExpression fuel ts
    | .keyword_fun => parseClosureExpression fuel ts
    | .identifier =>
      match matchToken .identifier ts with
      | .error e => .error e
      | .ok (t, ts) => .ok (.identifier (String.mk t.text), ts)
    | .integer =>
      match matchToken .integer ts with
      | .error e => .error e
      | .ok (t, ts) => .ok (.integer t.integerValue, ts)
    | .string =>
      match matchToken .string ts with
      | .error e => .error e
      | .ok (t, ts) => .ok (.string (String.mk t.stringValue), ts)
    | .leftBracket => parseArrayExpression fuel ts
    | _ => .error ⟨(peekT ts).line⟩

/-- Mirror of `Parser::parseParenExpression`: `(` expression `)`. -/
def parseParenExpression (fuel : Nat) (ts : List Token) :
    Except PErr (Expr × List Token) :=
  match fuel with
  | 0 => .error ⟨0⟩
  | fuel + 1 =>
    match matchToken .leftParen ts with
    | .error e => .error e
    | .ok (_, ts) =>
      match parseExpression fuel ts with
      | .error e => .error e
      | .ok (e, ts) =>
        match matchToken .rightParen ts with
        | .error e => .error e
        | .ok (_, ts) => .ok (e, ts)

/-- Mirror of `Parser::parseClosureExpression`: `fun` parameter-list
compound-statement. -/
def parseClosureExpression (fuel : Nat) (ts : List Token) :
    Except PErr (Expr × List Token) :=
  match fuel with
  | 0 => .error ⟨0⟩
  | fuel + 1 =>
    match matchToken .keyword_fun ts with
    | .error e => .error e
    | .ok (_, ts) =>
      match parseParameterList fuel ts with
      | .error e => .error e
      | .ok (params, ts) =>
        match parseCompoundStatement fuel ts with
        | .error e => .error e
        | .ok (body, ts) => .ok (.closure params body, ts)

/-- Modelled from the spec: the provided `Parser.hpp` has no rule for array
literals, although `ArrayExpressionNode` exists and the interpreter
evaluates it; the spec's grammar (§4.3) gives `primary = … | '[' (expr (','
expr)*)? ']'`. -/
def parseArrayExpression (fuel : Nat) (ts : List Token) :
    Except PErr (Expr × List Token) :=
  match fuel with
  | 0 => .error ⟨0⟩
  | fuel + 1 =>
    match matchToken .leftBracket ts with
    | .error e => .error e
    | .ok (_, ts) =>
      match (peekT ts).kind with
      | .rightBracket =>
        match matchToken .rightBracket ts with
        | .error e => .error e
        | .ok (_, ts) => .ok (.array [], ts)
      | _ =>
        match parseExpression fuel ts with
        | .error e => .error e
        | .ok (first, ts) =>
          match parseArgumentLoop fuel [first] ts with
          | .error e => .error e
          | .ok (elems, ts) =>
            match matchToken .rightBracket ts with
            | .error e => .error e
            | .ok (_, ts) => .ok (.array elems, ts)

end

end Stone

namespace Stone

/-! ## Runtime objects and environments (Interpreter.hpp)

Objects (`StoneObject` subclasses) and environments are reference values in
the C++ source (`std::shared_ptr`); both live in an explicit store here and
are referred to by index, so that shared mutation and reference identity
(`left == right` on `shared_ptr`) are modelled faithfully.  A possibly-null
`std::shared_ptr<StoneObject>` is an `Option Nat`.  `NativeFunctionObject`
is omitted: it is the host-callable surface, outside the core, and no claim
mentions it. -/

/-- One scope frame (`Environment` of Interpreter.hpp): parent pointer and
name table.  The `std::unordered_map` is an association list here; a stored
value may itself be the null pointer, hence `Option Nat`. -/
structure Environment where
  parent : Option Nat
  table : List (String × Option Nat)
  deriving DecidableEq, Repr

/-- Runtime objects: the concrete `StoneObject` subclasses of
Interpreter.hpp.  A `classObj` stores its node's name and body, its defining
environment and the resolved superclass (`m_node`, `m_env`,
`m_superClass`). -/
inductive Obj where
  | integerObj (value : Int)
  | stringObj (value : String)
  | functionObj (parameters : List String) (body : Stmt) (env : Nat)
  | classObj (name : String) (body : Stmt) (env : Nat) (superClass : Option Nat)
  | instanceObj (env : Nat)
  | arrayObj (elements : List (Option Nat))

/-- The store: all allocated objects and environment frames, indexed by
allocation order. -/
structure St where
  objs : List Obj
  envs : List Environment

/-- Mirror of `StoneObject::isInteger`: only `IntegerObject` overrides it to true. -/
def Obj.isInteger : Obj → Bool
  | .integerObj _ => true
  | _ => false

/-- Mirror of `StoneObject::isString`: only `StringObject` overrides it to true. -/
def Obj.isString : Obj → Bool
  | .stringObj _ => true
  | _ => false

/-- Mirror of `StoneObject::asInteger`: the value for `IntegerObject`, otherwise the
`EvaluateException` message. -/
def objAsInteger : Obj → Except String Int
  | .integerObj i => .ok i
  | _ => .error "cannot convert to int."

/-- Outcome of an evaluation step: a value with the updated store, a thrown
`EvaluateException`, undefined behavior (`crash`: null-pointer dereference,
division by zero, a cast to the wrong type), or exhausted fuel (`hang`:
models unbounded recursion / non-termination of the C++). -/
inductive Res (α : Type) where
  | ok (value : α) (st : St)
  | err (message : String)
  | crash
  | hang

/-- Sequence two evaluation steps, threading the store. -/
def Res.bind {α β : Type} : Res α → (α → St → Res β) → Res β
  | .ok v st, f => f v st
  | .err m, _ => .err m
  | .crash, _ => .crash
  | .hang, _ => .hang

/-- Allocate an object (`std::make_shared<…Object>`): fresh address. -/
def allocObj (st : St) (o : Obj) : Nat × St :=
  (st.objs.length, { st with objs := st.objs ++ [o] })

/-- Allocate an environment frame
(`std::make_shared<Environment>(parent)`). -/
def allocEnv (st : St) (parent : Option Nat) : Nat × St :=
  (st.envs.length, { st with envs := st.envs ++ [{ parent := parent, table := [] }] })

/-- Allocate and return a fresh `IntegerObject`. -/
def mkInt (st : St) (i : Int) : Res (Option Nat) :=
  let (a, st) := allocObj st (.integerObj i)
  .ok (some a) st

/-- Allocate and return a fresh `StringObject`. -/
def mkStr (st : St) (s : String) : Res (Option Nat) :=
  let (a, st) := allocObj st (.stringObj s)
  .ok (some a) st

/-- Mirror of `m_table[name] = value` on an `std::unordered_map`: replace the entry
if the key is present, insert it otherwise. -/
def tblInsert (table : List (String × Option Nat)) (name : String) (v : Option Nat) :
    List (String × Option Nat) :=
  match table with
  | [] => [(name, v)]
  | (k, w) :: rest => if k = name then (k, v) :: rest else (k, w) :: tblInsert rest name v

/-- Replace frame `e` of the store. -/
def setEnvAt (st : St) (e : Nat) (f : Environment) : St :=
  { st with envs := st.envs.set e f }

/-- Mirror of `Environment::put`: bind `name` in frame `e` unconditionally. -/
def envPut (st : St) (e : Nat) (name : String) (v : Option Nat) : St :=
  match st.envs[e]? with
  | none => st
  | some f => setEnvAt st e { f with table := tblInsert f.table name v }

/-- Mirror of `Environment::get`: the entry of the current frame if present, else —
when `recursive` and a parent exists — the parent's (recursive) entry, else
the null pointer.  The outer `Option` is the walk's fuel (`none` only if
fuel runs out; parent chains of reachable stores are finite). -/
def envGet (st : St) : Nat → Nat → String → Bool → Option (Option Nat)
  | 0, _, _, _ => none
  | fuel + 1, e, name, recursive =>
    match st.envs[e]? with
    | none => none
    | some f =>
      match f.table.lookup name with
      | some v => some v
      | none =>
        match recursive, f.parent with
        | true, some p => envGet st fuel p name true
        | _, _ => some none

/-- The walking loop of `Environment::set`: starting at `cur`, find the
nearest frame whose table contains `name` and rebind it there.  Result
`some (some st)` = rebound, `some none` = no frame on the chain contains
`name`, `none` = fuel ran out. -/
def envSetWalk (st : St) (v : Option Nat) (name : String) : Nat → Nat → Option (Option St)
  | 0, _ => none
  | fuel + 1, cur =>
    match st.envs[cur]? with
    | none => none
    | some f =>
      match f.table.lookup name with
      | some _ => some (some (setEnvAt st cur { f with table := tblInsert f.table name v }))
      | none =>
        match f.parent with
        | some p => envSetWalk st v name fuel p
        | none => some none

/-- Mirror of `Environment::set`: rebind in the nearest enclosing frame that already
contains `name`; if none does, fall back to `put` in the current frame.
(The `assert(value)` of the C++ is modelled at the call site.) -/
def envSet (st : St) (fuel : Nat) (e : Nat) (name : String) (v : Option Nat) : Option St :=
  match envSetWalk st v name fuel e with
  | none => none
  | some (some st) => some st
  | some none => some (envPut st e name v)

/-! ### asString (no store mutation) -/

/-- Outcome of `asString`, which never mutates the store. -/
inductive StrRes where
  | ok (s : String)
  | err (message : String)
  | crash
  | hang
  deriving DecidableEq, Repr

mutual

/-- Mirror of `StoneObject::asString` and its overrides: decimal rendering for
`IntegerObject` (`std::to_string`), the value for `StringObject`,
`[class N]` for `ClassObject`, the bracketed element list for
`ArrayObject`, and the `EvaluateException` otherwise (`StoneFunctionObject`
and `InstanceObject` keep the default). -/
def objAsString (st : St) : Nat → Obj → StrRes
  | 0, _ => .hang
  | _ + 1, .integerObj i => .ok (toString i)
  | _ + 1, .stringObj s => .ok s
  | _ + 1, .classObj name _ _ _ => .ok ("[class " ++ name ++ "]")
  | fuel + 1, .arrayObj elems => arrayAsStringLoop st fuel elems "" "["
  | _ + 1, .functionObj _ _ _ => .err "cannot convert to string."
  | _ + 1, .instanceObj _ => .err "cannot convert to string."

/-- The element loop of `ArrayObject::asString`: `s += delim; s +=
element->asString();` with `delim` becoming `", "` after the first element,
then `s += "]"` (note: an empty array therefore renders as `"]"`).  A null
element is a null-pointer dereference. -/
def arrayAsStringLoop (st : St) : Nat → List (Option Nat) → String → String → StrRes
  | 0, _, _, _ => .hang
  | _ + 1, [], acc, _ => .ok (acc ++ "]")
  | fuel + 1, v :: rest, acc, delim =>
    match v with
    | none => .crash
    | some a =>
      match st.objs[a]? with
      | none => .crash
      | some o =>
        match objAsString st fuel o with
        | .ok s => arrayAsStringLoop st fuel rest (acc ++ delim ++ s) ", "
        | .err m => .err m
        | .crash => .crash
        | .hang => .hang

end

/-- Dereference a possibly-null object pointer, as any `p->member` access
does: the null pointer (or a dangling index, which no reachable store
produces) is undefined behavior. -/
def derefObj (st : St) (v : Option Nat) : Res Obj :=
  match v with
  | none => .crash
  | some a =>
    match st.objs[a]? with
    | none => .crash
    | some o => .ok o st

/-- Mirror of `p->asInteger()` on a possibly-null pointer. -/
def derefAsInteger (st : St) (v : Option Nat) : Res Int :=
  (derefObj st v).bind fun o st =>
    match objAsInteger o with
    | .ok i => .ok i st
    | .error m => .err m

/-- Mirror of `p->asString()` on a possibly-null pointer. -/
def derefAsString (st : St) (fuel : Nat) (v : Option Nat) : Res String :=
  (derefObj st v).bind fun o st =>
    match objAsString st fuel o with
    | .ok s => .ok s st
    | .err m => .err m
    | .crash => .crash
    | .hang => .hang

/-- The `BinaryOperator::equal` case body of
`Interpreter::evaluate(BinaryExpressionNode)`, applied to the two evaluated
operands: if both are Integer compare numerically; else if either is a
String compare `asString` views; else compare `shared_ptr` identity.  The
result is a fresh Integer 1 or 0. -/
def equalCase (fuel : Nat) (lv rv : Option Nat) (st : St) : Res (Option Nat) :=
  (derefObj st lv).bind fun lo st =>
  (derefObj st rv).bind fun ro st =>
    match lo, ro with
    | .integerObj i, .integerObj j => mkInt st (if i = j then 1 else 0)
    | _, _ =>
      if lo.isString || ro.isString then
        (derefAsString st fuel lv).bind fun ls st =>
        (derefAsString st fuel rv).bind fun rs st =>
          mkInt st (if ls = rs then 1 else 0)
      else
        mkInt st (if lv = rv then 1 else 0)

/-- The `BinaryOperator::notEqual` case body of
`Interpreter::evaluate(BinaryExpressionNode)`.  Unlike `equal`, its first
test is `left->isInteger() || right->isInteger()` — an OR — so one Integer
operand forces `asInteger` on both sides (failing on a non-Integer other
side); else if either is a String compare `asString` views; else compare
identity. -/
def notEqualCase (fuel : Nat) (lv rv : Option Nat) (st : St) : Res (Option Nat) :=
  (derefObj st lv).bind fun lo st =>
  (derefObj st rv).bind fun ro st =>
    if lo.isInteger || ro.isInteger then
      (derefAsInteger st lv).bind fun i st =>
      (derefAsInteger st rv).bind fun j st =>
        mkInt st (if i ≠ j then 1 else 0)
    else if lo.isString || ro.isString then
      (derefAsString st fuel lv).bind fun ls st =>
      (derefAsString st fuel rv).bind fun rs st =>
        mkInt st (if ls ≠ rs then 1 else 0)
    else
      mkInt st (if lv ≠ rv then 1 else 0)

/-- Mirror of `InstanceObject::setMember` / default `StoneObject::setMember`:
an Instance `put`s the value into its own environment; every other object
throws. -/
def setMemberOp (st : St) (v : Option Nat) (memberName : String) (rhs : Option Nat) :
    Res Unit :=
  (derefObj st v).bind fun o st =>
    match o with
    | .instanceObj e => .ok () (envPut st e memberName rhs)
    | _ => .err ("invalid member assignment " ++ memberName ++ ".")

/-- Mirror of `ArrayObject::getIndexed` / default `StoneObject::getIndexed`: the
index is coerced with `asInteger` and cast to `std::size_t`, so a negative
index becomes huge and fails the bounds check. -/
def getIndexedOp (st : St) (v : Option Nat) (index : Option Nat) : Res (Option Nat) :=
  (derefObj st v).bind fun o st =>
    match o with
    | .arrayObj elems =>
      (derefAsInteger st index).bind fun n st =>
        if 0 ≤ n ∧ n.toNat < elems.length then .ok (elems.getD n.toNat none) st
        else .err "array index out of bounds."
    | _ => .err "invalid index access."

/-- Mirror of `ArrayObject::setIndexed` / default `StoneObject::setIndexed`. -/
def setIndexedOp (st : St) (v : Option Nat) (index : Option Nat) (rhs : Option Nat) :
    Res Unit :=
  (derefObj st v).bind fun o st =>
    match o, v with
    | .arrayObj elems, some a =>
      (derefAsInteger st index).bind fun n st =>
        if 0 ≤ n ∧ n.toNat < elems.length then
          .ok () { st with objs := st.objs.set a (.arrayObj (elems.set n.toNat rhs)) }
        else .err "array index out of bounds."
    | _, _ => .err "invalid index assignment."

/-- Bind parameters to arguments by position
(`calleeEnv->put(parameter.name(), arguments[i])`). -/
def bindParams (st : St) (e : Nat) : List String → List (Option Nat) → St
  | [], _ => st
  | _, [] => st
  | p :: ps, a :: as_ => bindParams (envPut st e p a) e ps as_

end Stone

namespace Stone

/-! ## Evaluator (Interpreter.hpp)

`evalStmt`/`evalExpr` cover `Interpreter::evaluate` per node kind
(`dispatch` resolves the dynamic node type; here the AST is already a sum).
`fuel` bounds the recursion depth; a C++ run that recurses without bound
(or loops forever) exhausts every fuel. -/

mutual

/-- Mirror of `Interpreter::evaluate` on statement nodes.  A thrown
`EvaluateException` (and likewise a crash or exhausted fuel) propagates
through every `match` arm, as stack unwinding does in the C++. -/
def evalStmt : Nat → Nat → Stmt → St → Res (Option Nat)
  | 0, _, _, _ => .hang
  | fuel + 1, env, s, st =>
    match s with
    | .ifS condition thenBranch otherwise =>
      -- if (dispatch(condition)->asInteger() != 0) then-branch else else-branch
      match evalExpr fuel env condition st with
      | .err m => .err m | .crash => .crash | .hang => .hang
      | .ok c st =>
        match derefAsInteger st c with
        | .err m => .err m | .crash => .crash | .hang => .hang
        | .ok i st =>
          if i ≠ 0 then evalStmt fuel env thenBranch st
          else
            match otherwise with
            | some o => evalStmt fuel env o st
            | none => .ok none st
    | .whileS condition body => evalWhile fuel env condition body none st
    | .compound children => evalStmts fuel env children none st
    | .procedure name parameters body =>
      -- a StoneFunctionObject capturing env, bound with put; value is the function
      let (a, st) := allocObj st (.functionObj parameters body env)
      .ok (some a) (envPut st env name (some a))
    | .classS name superName body =>
      -- resolve the optional superclass by env->get, then allocate and put
      let super : Res (Option Nat) :=
        match superName with
        | none => .ok none st
        | some sn =>
          match envGet st fuel env sn true with
          | none => .hang
          | some none => .err ("unknown super class " ++ sn ++ ".")
          | some (some sa) =>
            match st.objs[sa]? with
            | some (.classObj _ _ _ _) => .ok (some sa) st
            | some _ => .err (sn ++ " is not a class.")
            | none => .crash
      match super with
      | .err m => .err m | .crash => .crash | .hang => .hang
      | .ok superClass st =>
        let (a, st) := allocObj st (.classObj name body env superClass)
        .ok (some a) (envPut st env name (some a))
    | .expr e => evalExpr fuel env e st
  termination_by structural fuel _ _ _ => fuel

/-- The body loop of `Interpreter::evaluate(ProgramNode)` and
`evaluate(CompoundStatementNode)`: the block's value is the last child's
value (null when there is none). -/
def evalStmts : Nat → Nat → List Stmt → Option Nat → St → Res (Option Nat)
  | 0, _, _, _, _ => .hang
  | _ + 1, _, [], last, st => .ok last st
  | fuel + 1, env, s :: rest, _, st =>
    match evalStmt fuel env s st with
    | .err m => .err m | .crash => .crash | .hang => .hang
    | .ok v st => evalStmts fuel env rest v st
  termination_by structural fuel _ _ _ _ => fuel

/-- The loop of `Interpreter::evaluate(WhileStatementNode)`: while the
condition's integer view is non-zero evaluate the body; the value is the
last iteration's body value (null for zero iterations). -/
def evalWhile : Nat → Nat → Expr → Stmt → Option Nat → St → Res (Option Nat)
  | 0, _, _, _, _, _ => .hang
  | fuel + 1, env, condition, body, last, st =>
    match evalExpr fuel env condition st with
    | .err m => .err m | .crash => .crash | .hang => .hang
    | .ok c st =>
      match derefAsInteger st c with
      | .err m => .err m | .crash => .crash | .hang => .hang
      | .ok i st =>
        if i ≠ 0 then
          match evalStmt fuel env body st with
          | .err m => .err m | .crash => .crash | .hang => .hang
          | .ok v st => evalWhile fuel env condition body v st
        else .ok last st
  termination_by structural fuel _ _ _ _ _ => fuel

/-- Mirror of `Interpreter::evaluate` on expression nodes. -/
def evalExpr : Nat → Nat → Expr → St → Res (Option Nat)
  | 0, _, _, _ => .hang
  | fuel + 1, env, e, st =>
    match e with
    | .binary operation left right =>
      match operation with
      | .addition =>
        -- Integer sum when both sides are Integer, else asString concatenation
        match evalExpr fuel env left st with
        | .err m => .err m | .crash => .crash | .hang => .hang
        | .ok lv st =>
          match evalExpr fuel env right st with
          | .err m => .err m | .crash => .crash | .hang => .hang
          | .ok rv st =>
            match derefObj st lv with
            | .err m => .err m | .crash => .crash | .hang => .hang
            | .ok lo st =>
              match derefObj st rv with
              | .err m => .err m | .crash => .crash | .hang => .hang
              | .ok ro st =>
                match lo, ro with
                | .integerObj i, .integerObj j => mkInt st (i + j)
                | _, _ =>
                  match derefAsString st fuel lv with
                  | .err m => .err m | .crash => .crash | .hang => .hang
                  | .ok ls st =>
                    match derefAsString st fuel rv with
                    | .err m => .err m | .crash => .crash | .hang => .hang
                    | .ok rs st => mkStr st (ls ++ rs)
      | .subtraction =>
        match evalIntOperand fuel env left st with
        | .err m => .err m | .crash => .crash | .hang => .hang
        | .ok i st =>
          match evalIntOperand fuel env right st with
          | .err m => .err m | .crash => .crash | .hang => .hang
          | .ok j st => mkInt st (i - j)
      | .multiplication =>
        match evalIntOperand fuel env left st with
        | .err m => .err m | .crash => .crash | .hang => .hang
        | .ok i st =>
          match evalIntOperand fuel env right st with
          | .err m => .err m | .crash => .crash | .hang => .hang
          | .ok j st => mkInt st (i * j)
      | .division =>
        -- left->asInteger() / right->asInteger(): no zero check in the
        -- source, so a zero divisor is the host's undefined behavior
        match evalIntOperand fuel env left st with
        | .err m => .err m | .crash => .crash | .hang => .hang
        | .ok i st =>
          match evalIntOperand fuel env right st with
          | .err m => .err m | .crash => .crash | .hang => .hang
          | .ok j st => if j = 0 then .crash else mkInt st (Int.tdiv i j)
      | .modulo =>
        match evalIntOperand fuel env left st with
        | .err m => .err m | .crash => .crash | .hang => .hang
        | .ok i st =>
          match evalIntOperand fuel env right st with
          | .err m => .err m | .crash => .crash | .hang => .hang
          | .ok j st => if j = 0 then .crash else mkInt st (Int.tmod i j)
      | .equal =>
        match evalExpr fuel env left st with
        | .err m => .err m | .crash => .crash | .hang => .hang
        | .ok lv st =>
          match evalExpr fuel env right st with
          | .err m => .err m | .crash => .crash | .hang => .hang
          | .ok rv st => equalCase fuel lv rv st
      | .notEqual =>
        match evalExpr fuel env left st with
        | .err m => .err m | .crash => .crash | .hang => .hang
        | .ok lv st =>
          match evalExpr fuel env right st with
          | .err m => .err m | .crash => .crash | .hang => .hang
          | .ok rv st => notEqualCase fuel lv rv st
      | .lesserThan =>
        match evalIntOperand fuel env left st with
        | .err m => .err m | .crash => .crash | .hang => .hang
        | .ok i st =>
          match evalIntOperand fuel env right st with
          | .err m => .err m | .crash => .crash | .hang => .hang
          | .ok j st => mkInt st (if i < j then 1 else 0)
      | .lesserEqual =>
        match evalIntOperand fuel env left st with
        | .err m => .err m | .crash => .crash | .hang => .hang
        | .ok i st =>
          match evalIntOperand fuel env right st with
          | .err m => .err m | .crash => .crash | .hang => .hang
          | .ok j st => mkInt st (if i ≤ j then 1 else 0)
      | .greaterThan =>
        match evalIntOperand fuel env left st with
        | .err m => .err m | .crash => .crash | .hang => .hang
        | .ok i st =>
          match evalIntOperand fuel env right st with
          | .err m => .err m | .crash => .crash | .hang => .hang
          | .ok j st => mkInt st (if j < i then 1 else 0)
      | .greaterEqual =>
        match evalIntOperand fuel env left st with
        | .err m => .err m | .crash => .crash | .hang => .hang
        | .ok i st =>
          match evalIntOperand fuel env right st with
          | .err m => .err m | .crash => .crash | .hang => .hang
          | .ok j st => mkInt st (if j ≤ i then 1 else 0)
      | .assign =>
        -- the three legal LHS forms; the RHS is evaluated first in each
        match left with
        | .identifier name =>
          match evalExpr fuel env right st with
          | .err m => .err m | .crash => .crash | .hang => .hang
          | .ok rv st =>
            match rv with
            | none => .crash   -- assert(value) in Environment::set
            | some _ =>
              match envSet st fuel env name rv with
              | none => .hang
              | some st => .ok rv st
        | .memberAccess operand memberName =>
          match evalExpr fuel env right st with
          | .err m => .err m | .crash => .crash | .hang => .hang
          | .ok rv st =>
            match evalExpr fuel env operand st with
            | .err m => .err m | .crash => .crash | .hang => .hang
            | .ok ov st =>
              match setMemberOp st ov memberName rv with
              | .err m => .err m | .crash => .crash | .hang => .hang
              | .ok _ st => .ok rv st
        | .arrayIndex operand index =>
          match evalExpr fuel env right st with
          | .err m => .err m | .crash => .crash | .hang => .hang
          | .ok rv st =>
            match evalExpr fuel env index st with
            | .err m => .err m | .crash => .crash | .hang => .hang
            | .ok iv st =>
              match evalExpr fuel env operand st with
              | .err m => .err m | .crash => .crash | .hang => .hang
              | .ok ov st =>
                match setIndexedOp st ov iv rv with
                | .err m => .err m | .crash => .crash | .hang => .hang
                | .ok _ st => .ok rv st
        | _ => .err "invalid assignment."
    | .unary operation operand =>
      match operation with
      | .negation =>
        -- the source reads `-dispatch(node, env)->asInteger()`: it
        -- re-dispatches the whole unary NODE, not its operand, recursing
        -- into this same case forever
        match evalExpr fuel env (.unary operation operand) st with
        | .err m => .err m | .crash => .crash | .hang => .hang
        | .ok v st =>
          match derefAsInteger st v with
          | .err m => .err m | .crash => .crash | .hang => .hang
          | .ok i st => mkInt st (-i)
    | .call callee arguments =>
      match evalExpr fuel env callee st with
      | .err m => .err m | .crash => .crash | .hang => .hang
      | .ok f st =>
        match evalArgs fuel env arguments [] st with
        | .err m => .err m | .crash => .crash | .hang => .hang
        | .ok args st => invoke fuel f args st
    | .arrayIndex operand index =>
      -- evaluation order of the source: index first, then operand
      match evalExpr fuel env index st with
      | .err m => .err m | .crash => .crash | .hang => .hang
      | .ok iv st =>
        match evalExpr fuel env operand st with
        | .err m => .err m | .crash => .crash | .hang => .hang
        | .ok ov st => getIndexedOp st ov iv
    | .memberAccess operand memberName =>
      match evalExpr fuel env operand st with
      | .err m => .err m | .crash => .crash | .hang => .hang
      | .ok ov st => getMember fuel ov memberName st
    | .closure parameters body =>
      let (a, st) := allocObj st (.functionObj parameters body env)
      .ok (some a) st
    | .array elements =>
      match evalArgs fuel env elements [] st with
      | .err m => .err m | .crash => .crash | .hang => .hang
      | .ok vs st =>
        let (a, st) := allocObj st (.arrayObj vs)
        .ok (some a) st
    | .identifier name =>
      match envGet st fuel env name true with
      | none => .hang
      | some v => .ok v st
    | .integer value => mkInt st value
    | .string value => mkStr st value
  termination_by structural fuel _ _ _ => fuel

/-- Evaluate an expression and take `->asInteger()` of its value, the
`dispatch(…)->asInteger()` idiom of the arithmetic and comparison cases. -/
def evalIntOperand : Nat → Nat → Expr → St → Res Int
  | 0, _, _, _ => .hang
  | fuel + 1, env, e, st =>
    match evalExpr fuel env e st with
    | .err m => .err m | .crash => .crash | .hang => .hang
    | .ok v st => derefAsInteger st v
  termination_by structural fuel _ _ _ => fuel

/-- The argument loop of `Interpreter::evaluate(CallExpressionNode)` (also
the element loop of `evaluate(ArrayExpressionNode)`): left to right. -/
def evalArgs : Nat → Nat → List Expr → List (Option Nat) → St → Res (List (Option Nat))
  | 0, _, _, _, _ => .hang
  | _ + 1, _, [], acc, st => .ok acc st
  | fuel + 1, env, e :: rest, acc, st =>
    match evalExpr fuel env e st with
    | .err m => .err m | .crash => .crash | .hang => .hang
    | .ok v st => evalArgs fuel env rest (acc ++ [v]) st
  termination_by structural fuel _ _ _ _ => fuel

/-- Mirror of `StoneFunctionObject::invoke` (function objects) and the default
`StoneObject::invoke` (everything else): push a fresh environment whose
parent is the capture environment, check the arity, bind parameters by
position and evaluate the body there. -/
def invoke : Nat → Option Nat → List (Option Nat) → St → Res (Option Nat)
  | 0, _, _, _ => .hang
  | fuel + 1, callee, args, st =>
    match derefObj st callee with
    | .err m => .err m | .crash => .crash | .hang => .hang
    | .ok o st =>
      match o with
      | .functionObj parameters body fenv =>
        let (ce, st) := allocEnv st (some fenv)
        if args.length ≠ parameters.length then .err "invalid number of arguments."
        else evalStmt fuel ce body (bindParams st ce parameters args)
      | _ => .err "value is not a function."
  termination_by structural fuel _ _ _ => fuel

/-- Mirror of `ClassObject::getMember` (for `new`: build an Instance — via the
superclass's `new` when one exists, else fresh with the class's defining
environment as parent and `this` bound to the instance — then evaluate the
class body against the instance's environment), `InstanceObject::getMember`
(a non-recursive lookup in the instance's own environment) and the default
`StoneObject::getMember` (the invalid-member `EvaluateException`). -/
def getMember : Nat → Option Nat → String → St → Res (Option Nat)
  | 0, _, _, _ => .hang
  | fuel + 1, v, memberName, st =>
    match derefObj st v with
    | .err m => .err m | .crash => .crash | .hang => .hang
    | .ok o st =>
      match o with
      | .instanceObj e =>
        match st.envs[e]? with
        | none => .crash
        | some f =>
          match f.table.lookup memberName with
          | some (some m) => .ok (some m) st
          | _ => .err ("invalid member name " ++ memberName ++ ".")
      | .classObj _ body cenv superClass =>
        if memberName = "new" then
          let created : Res Nat :=
            match superClass with
            | some sc =>
              -- m_superClass->getMember(interpreter, "new"), cast to Instance
              match getMember fuel (some sc) memberName st with
              | .err m => .err m | .crash => .crash | .hang => .hang
              | .ok (some oa) st => .ok oa st
              | .ok none _ => .crash
            | none =>
              -- InstanceObject::create(m_env): env with the class's defining
              -- environment as parent, `this` bound to the instance
              let (e, st) := allocEnv st (some cenv)
              let (ia, st) := allocObj st (.instanceObj e)
              .ok ia (envPut st e "this" (some ia))
          match created with
          | .err m => .err m | .crash => .crash | .hang => .hang
          | .ok oa st =>
            match st.objs[oa]? with
            | some (.instanceObj e) =>
              -- dispatch(m_node.body(), object->m_env), then return object
              match evalStmt fuel e body st with
              | .err m => .err m | .crash => .crash | .hang => .hang
              | .ok _ st => .ok (some oa) st
            | _ => .crash   -- static_pointer_cast to a non-Instance
        else .err ("invalid member name " ++ memberName ++ ".")
      | _ => .err ("invalid member name " ++ memberName ++ ".")
  termination_by structural fuel _ _ _ => fuel

end

/-- Mirror of `Interpreter::evaluate(ProgramNode, env)`: the program's statements in
order; the value is the last statement's (null for an empty program). -/
def evalProgram (st : St) (fuel : Nat) (env : Nat) (prog : List Stmt) : Res (Option Nat) :=
  evalStmts fuel env prog none st

/-- The store holding only the fresh top-level environment that
`Interpreter::evaluate`'s default argument creates
(`std::make_shared<Environment>(nullptr)`); its index is 0. -/
def initialSt : St :=
  { objs := [], envs := [{ parent := none, table := [] }] }

end Stone

namespace Stone

/-! ## End-to-end pipeline (stone.cpp wiring: Lexer → Parser → Interpreter) -/

/-- Outcome of lexing, parsing and evaluating a source string in a fresh
top-level environment. -/
inductive RunRes where
  | value (v : Option Nat) (st : St)
  | lexError
  | parseError
  | evalError (message : String)
  | crash
  | hang

/-- Run a source string through the pipeline with the given fuel, starting
from store `st` and environment `env` (fresh runs use `initialSt` and
environment 0, matching `Interpreter::evaluate`'s default argument). -/
def runOn (st : St) (env : Nat) (src : String) (fuel : Nat) : RunRes :=
  match lexAll src fuel with
  | .err => .lexError
  | .hang => .hang
  | .toks ts =>
    match parseProgram fuel ts with
    | .error _ => .parseError
    | .ok (prog, _) =>
      match evalProgram st fuel env prog with
      | .ok v st => .value v st
      | .err m => .evalError m
      | .crash => .crash
      | .hang => .hang

/-- Run a source string in a fresh environment. -/
def run (src : String) (fuel : Nat) : RunRes :=
  runOn initialSt 0 src fuel

/-- The Integer result of a fresh run, when there is one. -/
def runToInt (src : String) (fuel : Nat) : Option Int :=
  match run src fuel with
  | .value (some a) st =>
    match st.objs[a]? with
    | some (.integerObj i) => some i
    | _ => none
  | _ => none

/-- The String result of a fresh run, when there is one. -/
def runToStr (src : String) (fuel : Nat) : Option String :=
  match run src fuel with
  | .value (some a) st =>
    match st.objs[a]? with
    | some (.stringObj s) => some s
    | _ => none
  | _ => none

/-- The Integer result of running `src₂` in the store and top-level
environment left behind by a fresh run of `src₁` (a second
`Interpreter::evaluate` call against the same environment). -/
def runThenToInt (srcA srcB : String) (fuel : Nat) : Option Int :=
  match run srcA fuel with
  | .value _ st =>
    match runOn st 0 srcB fuel with
    | .value (some a) st =>
      match st.objs[a]? with
      | some (.integerObj i) => some i
      | _ => none
    | _ => none
  | _ => none

end Stone

namespace Stone

/-! ## Statement-level definitions for the verified properties -/

/-- The token kind whose entry in the operator table of
`Parser::parseBinaryExpression` denotes the given binary operator (the
inverse reading of `opInfo`). -/
def tokenKindOf : BinaryOperator → TokenKind
  | .multiplication => .star
  | .division => .slash
  | .modulo => .percent
  | .addition => .plus
  | .subtraction => .minus
  | .lesserThan => .lesserThan
  | .lesserEqual => .lesserEqual
  | .greaterThan => .greaterThan
  | .greaterEqual => .greaterEqual
  | .equal => .equal
  | .notEqual => .notEqual
  | .assign => .assign

/-- The precedence of a binary operator in the table of
`Parser::parseBinaryExpression`. -/
def opPrec (op : BinaryOperator) : Int := (opInfo (tokenKindOf op)).2.1

/-- The right-associativity flag of a binary operator in the table of
`Parser::parseBinaryExpression` (`true` only for `=`). -/
def opAssoc (op : BinaryOperator) : Bool := (opInfo (tokenKindOf op)).2.2

/-- An identifier token, line 1. -/
def identTok (s : String) : Token := { kind := .identifier, text := s.data, line := 1 }

/-- An operator token for a binary operator, line 1. -/
def opTok (op : BinaryOperator) : Token := { kind := tokenKindOf op, text := [], line := 1 }

/-- The end-of-file token on line 1. -/
def eofTok : Token := { kind := .endOfFile, text := "[EOF]".data, line := 1 }

/-- The spec's end-to-end class scenario source (§8 scenario 4). -/
def classScenarioSrc : String :=
  "class Position { x = y = 0; def move(_x,_y) { x = _x; y = _y } }; p = Position.new; p.move(3,4); p.x"

/-- The spec's end-to-end array/string scenario source (§8 scenario 3). -/
def arrayScenarioSrc : String :=
  "a = [2, 3, 4]; a[1] = \"three\"; a[0] + \":\" + a[1]"

/-- The spec's end-to-end closure-counter scenario source (§8 scenario 2). -/
def counterScenarioSrc : String :=
  "def counter() { cnt = 0; fun() { cnt = cnt + 1 } }; c = counter(); c(); c(); c(); c(); c()"

/-- The token sequence of `classScenarioSrc` (all on line 1). -/
def classScenarioToks : List Token :=
  [ { kind := .keyword_class, text := "class".data, line := 1 }
  , { kind := .identifier, text := "Position".data, line := 1 }
  , { kind := .leftBrace, text := "\x7b".data, line := 1 }
  , { kind := .identifier, text := "x".data, line := 1 }
  , { kind := .assign, text := "=".data, line := 1 }
  , { kind := .identifier, text := "y".data, line := 1 }
  , { kind := .assign, text := "=".data, line := 1 }
  , { kind := .integer, text := "0".data, line := 1, integerValue := 0 }
  , { kind := .semicolon, text := ";".data, line := 1 }
  , { kind := .keyword_def, text := "def".data, line := 1 }
  , { kind := .identifier, text := "move".data, line := 1 }
  , { kind := .leftParen, text := "(".data, line := 1 }
  , { kind := .identifier, text := "_x".data, line := 1 }
  , { kind := .comma, text := ",".data, line := 1 }
  , { kind := .identifier, text := "_y".data, line := 1 }
  , { kind := .rightParen, text := ")".data, line := 1 }
  , { kind := .leftBrace, text := "\x7b".data, line := 1 }
  , { kind := .identifier, text := "x".data, line := 1 }
  , { kind := .assign, text := "=".data, line := 1 }
  , { kind := .identifier, text := "_x".data, line := 1 }
  , { kind := .semicolon, text := ";".data, line := 1 }
  , { kind := .identifier, text := "y".data, line := 1 }
  , { kind := .assign, text := "=".data, line := 1 }
  , { kind := .identifier, text := "_y".data, line := 1 }
  , { kind := .rightBrace, text := "\x7d".data, line := 1 }
  , { kind := .rightBrace, text := "\x7d".data, line := 1 }
  , { kind := .semicolon, text := ";".data, line := 1 }
  , { kind := .identifier, text := "p".data, line := 1 }
  , { kind := .assign, text := "=".data, line := 1 }
  , { kind := .identifier, text := "Position".data, line := 1 }
  , { kind := .period, text := ".".data, line := 1 }
  , { kind := .identifier, text := "new".data, line := 1 }
  , { kind := .semicolon, text := ";".data, line := 1 }
  , { kind := .identifier, text := "p".data, line := 1 }
  , { kind := .period, text := ".".data, line := 1 }
  , { kind := .identifier, text := "move".data, line := 1 }
  , { kind := .leftParen, text := "(".data, line := 1 }
  , { kind := .integer, text := "3".data, line := 1, integerValue := 3 }
  , { kind := .comma, text := ",".data, line := 1 }
  , { kind := .integer, text := "4".data, line := 1, integerValue := 4 }
  , { kind := .rightParen, text := ")".data, line := 1 }
  , { kind := .semicolon, text := ";".data, line := 1 }
  , { kind := .identifier, text := "p".data, line := 1 }
  , { kind := .period, text := ".".data, line := 1 }
  , { kind := .identifier, text := "x".data, line := 1 }
  , { kind := .endOfFile, text := "[EOF]".data, line := 1 }
  ]

/-- The token sequence of `"p.y"`. -/
def pyToks : List Token :=
  [ { kind := .identifier, text := "p".data, line := 1 }
  , { kind := .period, text := ".".data, line := 1 }
  , { kind := .identifier, text := "y".data, line := 1 }
  , { kind := .endOfFile, text := "[EOF]".data, line := 1 }
  ]

/-- The token sequence of `arrayScenarioSrc` (all on line 1). -/
def arrayScenarioToks : List Token :=
  [ { kind := .identifier, text := "a".data, line := 1 }
  , { kind := .assign, text := "=".data, line := 1 }
  , { kind := .leftBracket, text := "[".data, line := 1 }
  , { kind := .integer, text := "2".data, line := 1, integerValue := 2 }
  , { kind := .comma, text := ",".data, line := 1 }
  , { kind := .integer, text := "3".data, line := 1, integerValue := 3 }
  , { kind := .comma, text := ",".data, line := 1 }
  , { kind := .integer, text := "4".data, line := 1, integerValue := 4 }
  , { kind := .rightBracket, text := "]".data, line := 1 }
  , { kind := .semicolon, text := ";".data, line := 1 }
  , { kind := .identifier, text := "a".data, line := 1 }
  , { kind := .leftBracket, text := "[".data, line := 1 }
  , { kind := .integer, text := "1".data, line := 1, integerValue := 1 }
  , { kind := .rightBracket, text := "]".data, line := 1 }
  , { kind := .assign, text := "=".data, line := 1 }
  , { kind := .string, text := "\"three\"".data, line := 1, stringValue := "three".data }
  , { kind := .semicolon, text := ";".data, line := 1 }
  , { kind := .identifier, text := "a".data, line := 1 }
  , { kind := .leftBracket, text := "[".data, line := 1 }
  , { kind := .integer, text := "0".data, line := 1, integerValue := 0 }
  , { kind := .rightBracket, text := "]".data, line := 1 }
  , { kind := .plus, text := "+".data, line := 1 }
  , { kind := .string, text := "\":\"".data, line := 1, stringValue := ":".data }
  , { kind := .plus, text := "+".data, line := 1 }
  , { kind := .identifier, text := "a".data, line := 1 }
  , { kind := .leftBracket, text := "[".data, line := 1 }
  , { kind := .integer, text := "1".data, line := 1, integerValue := 1 }
  , { kind := .rightBracket, text := "]".data, line := 1 }
  , { kind := .endOfFile, text := "[EOF]".data, line := 1 }
  ]

/-- The token sequence of `counterScenarioSrc` (all on line 1). -/
def counterScenarioToks : List Token :=
  [ { kind := .keyword_def, text := "def".data, line := 1 }
  , { kind := .identifier, text := "counter".data, line := 1 }
  , { kind := .leftParen, text := "(".data, line := 1 }
  , { kind := .rightParen, text := ")".data, line := 1 }
  , { kind := .leftBrace, text := "\x7b".data, line := 1 }
  , { kind := .identifier, text := "cnt".data, line := 1 }
  , { kind := .assign, text := "=".data, line := 1 }
  , { kind := .integer, text := "0".data, line := 1, integerValue := 0 }
  , { kind := .semicolon, text := ";".data, line := 1 }
  , { kind := .keyword_fun, text := "fun".data, line := 1 }
  , { kind := .leftParen, text := "(".data, line := 1 }
  , { kind := .rightParen, text := ")".data, line := 1 }
  , { kind := .leftBrace, text := "\x7b".data, line := 1 }
  , { kind := .identifier, text := "cnt".data, line := 1 }
  , { kind := .assign, text := "=".data, line := 1 }
  , { kind := .identifier, text := "cnt".data, line := 1 }
  , { kind := .plus, text := "+".data, line := 1 }
  , { kind := .integer, text := "1".data, line := 1, integerValue := 1 }
  , { kind := .rightBrace, text := "\x7d".data, line := 1 }
  , { kind := .rightBrace, text := "\x7d".data, line := 1 }
  , { kind := .semicolon, text := ";".data, line := 1 }
  , { kind := .identifier, text := "c".data, line := 1 }
  , { kind := .assign, text := "=".data, line := 1 }
  , { kind := .identifier, text := "counter".data, line := 1 }
  , { kind := .leftParen, text := "(".data, line := 1 }
  , { kind := .rightParen, text := ")".data, line := 1 }
  , { kind := .semicolon, text := ";".data, line := 1 }
  , { kind := .identifier, text := "c".data, line := 1 }
  , { kind := .leftParen, text := "(".data, line := 1 }
  , { kind := .rightParen, text := ")".data, line := 1 }
  , { kind := .semicolon, text := ";".data, line := 1 }
  , { kind := .identifier, text := "c".data, line := 1 }
  , { kind := .leftParen, text := "(".data, line := 1 }
  , { kind := .rightParen, text := ")".data, line := 1 }
  , { kind := .semicolon, text := ";".data, line := 1 }
  , { kind := .identifier, text := "c".data, line := 1 }
  , { kind := .leftParen, text := "(".data, line := 1 }
  , { kind := .rightParen, text := ")".data, line := 1 }
  , { kind := .semicolon, text := ";".data, line := 1 }
  , { kind := .identifier, text := "c".data, line := 1 }
  , { kind := .leftParen, text := "(".data, line := 1 }
  , { kind := .rightParen, text := ")".data, line := 1 }
  , { kind := .semicolon, text := ";".data, line := 1 }
  , { kind := .identifier, text := "c".data, line := 1 }
  , { kind := .leftParen, text := "(".data, line := 1 }
  , { kind := .rightParen, text := ")".data, line := 1 }
  , { kind := .endOfFile, text := "[EOF]".data, line := 1 }
  ]

/-- A source whose final line is a `//` comment not terminated by a
newline, the input on which the comment loop of `Lexer::read` runs away. -/
def trailingCommentSrc : String := "// final comment"

end Stone

namespace Stone

/-- The increment statement of the counter scenario's closure body. -/
def counterIncrStmt : Stmt :=
  .expr (.binary .assign (.identifier "cnt") (.binary .addition (.identifier "cnt") (.integer 1)))

/-- The closure body of the counter scenario. -/
def counterClosureBody : Stmt := .compound [counterIncrStmt]

/-- The body of `counter` in the counter scenario. -/
def counterFnBody : Stmt :=
  .compound
    [ .expr (.binary .assign (.identifier "cnt") (.integer 0))
    , .expr (.closure [] counterClosureBody) ]

/-- A bare `c()` call statement. -/
def callCStmt : Stmt := .expr (.call (.identifier "c") [])

/-- The AST the parser produces for `counterScenarioSrc`. -/
def counterScenarioProg : List Stmt :=
  [ .procedure "counter" [] counterFnBody
  , .expr (.binary .assign (.identifier "c") (.call (.identifier "counter") []))
  , callCStmt, callCStmt, callCStmt, callCStmt, callCStmt ]

/-- The store after `def counter …` has executed in a fresh environment:
the function object is allocated and bound at top level. -/
def counterStA : St :=
  { objs := [.functionObj [] counterFnBody 0]
  , envs := [⟨none, [("counter", some 0)]⟩] }

/-- The store after `c = counter()` and `n` subsequent `c()` calls:
the `counter` function (address 0), the `cnt` zero (address 1), the
returned closure (address 2, bound to `c`), and per call the literal 1 and
the freshly allocated sum; `cnt` in the call frame of `counter` points at
the latest sum, and each `c()` pushed one (empty) call frame. -/
def counterSt (n : Nat) : St :=
  { objs :=
      [ .functionObj [] counterFnBody 0
      , .integerObj 0
      , .functionObj [] counterClosureBody 1 ]
      ++ (List.range n).flatMap
           (fun i => [.integerObj 1, .integerObj (Int.ofNat (i + 1))])
  , envs :=
      [ ⟨none, [("counter", some 0), ("c", some 2)]⟩
      , ⟨some 0, [("cnt", some (if n = 0 then 1 else 2 * n + 2))]⟩ ]
      ++ List.replicate n ⟨some 1, []⟩ }

/-! ## Helper lemmas -/

/-- No position of a newline-free source reads as `'\n'` (inside the buffer
the character is one of the source's; outside it is NUL). -/
theorem chAt_ne_newline (src : List Char) (h : '\n' ∉ src) (i : Nat) :
    chAt src i ≠ '\n' := by
  unfold chAt
  rcases Nat.lt_or_ge i src.length with hi | hi
  · rw [List.getD_eq_getElem src nulChar hi]
    intro hEq
    exact h (hEq ▸ List.getElem_mem hi)
  · rw [List.getD_eq_default src nulChar hi]
    decide

/-- On a source with no newline at or after the comment, the comment loop
of `Lexer::read` never stops, whatever the fuel. -/
theorem skipLineComment_none (src : List Char) (h : '\n' ∉ src) :
    ∀ fuel pos, skipLineComment src fuel pos = none := by
  intro fuel
  induction fuel with
  | zero => intro pos; rfl
  | succ n ih =>
    intro pos
    rw [skipLineComment]
    rw [if_neg (chAt_ne_newline src h pos)]
    exact ih (pos + 1)

/-- Lexing the class scenario source. -/
theorem classScenario_lex : lexAll classScenarioSrc 50 = .toks classScenarioToks := rfl

/-- Lexing the follow-up source `p.y`. -/
theorem py_lex : lexAll "p.y" 50 = .toks pyToks := rfl

/-- Lexing the array/string scenario source. -/
theorem arrayScenario_lex : lexAll arrayScenarioSrc 30 = .toks arrayScenarioToks := rfl

/-- Lexing the closure-counter scenario source. -/
theorem counterScenario_lex : lexAll counterScenarioSrc 50 = .toks counterScenarioToks := rfl

/-- Parsing the closure-counter scenario tokens. -/
theorem counterScenario_parse :
    parseProgram 50 counterScenarioToks = .ok (counterScenarioProg, [eofTok]) := rfl

/-- One step of the statement loop of `evaluate(ProgramNode)`. -/
theorem evalStmts_cons {fuel env : Nat} {s : Stmt} {st st' : St} {v : Option Nat}
    {rest : List Stmt} {last : Option Nat} (h : evalStmt fuel env s st = .ok v st') :
    evalStmts (fuel + 1) env (s :: rest) last st = evalStmts fuel env rest v st' := by
  simp only [evalStmts, h]

/-- Counter scenario, statement 1: `def counter …`. -/
theorem counterStep1 :
    evalStmt 49 0 (.procedure "counter" [] counterFnBody) initialSt =
      .ok (some 0) counterStA := rfl

/-- Counter scenario, statement 2: `c = counter()`. -/
theorem counterStep2 :
    evalStmt 48 0 (.expr (.binary .assign (.identifier "c")
        (.call (.identifier "counter") []))) counterStA =
      .ok (some 2) (counterSt 0) := rfl

/-- Counter scenario, the five `c()` calls. -/
theorem counterStep3 : evalStmt 47 0 callCStmt (counterSt 0) = .ok (some 4) (counterSt 1) := rfl

/-- Counter scenario, second `c()`. -/
theorem counterStep4 : evalStmt 46 0 callCStmt (counterSt 1) = .ok (some 6) (counterSt 2) := rfl

/-- Counter scenario, third `c()`. -/
theorem counterStep5 : evalStmt 45 0 callCStmt (counterSt 2) = .ok (some 8) (counterSt 3) := rfl

/-- Counter scenario, fourth `c()`. -/
theorem counterStep6 : evalStmt 44 0 callCStmt (counterSt 3) = .ok (some 10) (counterSt 4) := rfl

/-- Counter scenario, fifth `c()`: the value is the fifth sum, Integer 5 at
address 12. -/
theorem counterStep7 : evalStmt 43 0 callCStmt (counterSt 4) = .ok (some 12) (counterSt 5) := rfl

/-- The counter scenario program evaluates to the Integer-5 object. -/
theorem counterScenario_eval :
    evalProgram initialSt 50 0 counterScenarioProg = .ok (some 12) (counterSt 5) := by
  unfold evalProgram counterScenarioProg
  rw [evalStmts_cons counterStep1, evalStmts_cons counterStep2, evalStmts_cons counterStep3,
    evalStmts_cons counterStep4, evalStmts_cons counterStep5, evalStmts_cons counterStep6,
    evalStmts_cons counterStep7]
  rfl

/-- An `std::unordered_map` insertion makes the key map to the value. -/
theorem lookup_tblInsert_self (t : List (String × Option Nat)) (name : String) (v : Option Nat) :
    (tblInsert t name v).lookup name = some v := by
  induction t with
  | nil => simp [tblInsert, List.lookup]
  | cons kv rest ih =>
    obtain ⟨k, w⟩ := kv
    by_cases hk : k = name
    · simp [tblInsert, hk, List.lookup]
    · simp only [tblInsert, if_neg hk, List.lookup]
      have : (name == k) = false := by simp [Ne.symm hk]
      simp [this, ih]

/-- An `std::unordered_map` insertion leaves other keys unchanged. -/
theorem lookup_tblInsert_ne (t : List (String × Option Nat)) (name n' : String)
    (v : Option Nat) (h : n' ≠ name) :
    (tblInsert t name v).lookup n' = t.lookup n' := by
  have hb : (n' == name) = false := by simp [h]
  induction t with
  | nil => simp [tblInsert, List.lookup, hb]
  | cons kv rest ih =>
    obtain ⟨k, w⟩ := kv
    by_cases hk : k = name
    · subst hk
      simp [tblInsert, List.lookup, hb, ih]
    · simp only [tblInsert, if_neg hk, List.lookup]
      cases hq : (n' == k) <;> simp [hq, ih]

/-- Mirror of `Environment::get` finds an entry of the current frame directly. -/
theorem envGet_found : ∀ (st : St) (fuel e : Nat) (name : String) (recursive : Bool)
    (f : Environment) (v : Option Nat),
    st.envs[e]? = some f → f.table.lookup name = some v →
    envGet st (fuel + 1) e name recursive = some v := by
  intro st fuel e name recursive f v he hl
  simp [envGet, he, hl]

/-- A recursive `Environment::get` that misses the current frame defers to
the parent frame. -/
theorem envGet_parent : ∀ (st : St) (fuel e p : Nat) (name : String) (f : Environment),
    st.envs[e]? = some f → f.table.lookup name = none → f.parent = some p →
    envGet st (fuel + 1) e name true = envGet st fuel p name true := by
  intro st fuel e p name f he hl hp
  simp [envGet, he, hl, hp]

/-- Mirror of `Environment::get` yields the null pointer when the name is missing and
there is no parent to consult (no parent frame, or a non-recursive call). -/
theorem envGet_absent : ∀ (st : St) (fuel e : Nat) (name : String) (recursive : Bool)
    (f : Environment),
    st.envs[e]? = some f → f.table.lookup name = none →
    (f.parent = none ∨ recursive = false) →
    envGet st (fuel + 1) e name recursive = some none := by
  intro st fuel e name recursive f he hl hc
  rcases hc with hp | hr
  · cases recursive <;> simp [envGet, he, hl, hp]
  · subst hr; simp [envGet, he, hl]

/-- After `Environment::put`, `get` on the same frame yields the new value. -/
theorem envPut_get : ∀ (st : St) (fuel e : Nat) (name : String) (recursive : Bool)
    (f : Environment) (v : Option Nat),
    st.envs[e]? = some f →
    envGet (envPut st e name v) (fuel + 1) e name recursive = some v := by
  intro st fuel e name recursive f v he
  have hlt : e < st.envs.length := (List.getElem?_eq_some.mp he).1
  have : (envPut st e name v).envs[e]? =
      some { f with table := tblInsert f.table name v } := by
    simp only [envPut, he, setEnvAt]
    simpa using List.getElem?_set_eq_of_lt _ hlt
  simp [envGet, this, lookup_tblInsert_self]

/-- Mirror of `Environment::put` touches only the current frame. -/
theorem envPut_other_frames : ∀ (st : St) (e e' : Nat) (name : String) (v : Option Nat),
    e' ≠ e → (envPut st e name v).envs[e']? = st.envs[e']? := by
  intro st e e' name v hne
  unfold envPut
  cases he : st.envs[e]? with
  | none => rfl
  | some f =>
    simp only [setEnvAt]
    exact List.getElem?_set_ne (by omega)

/-- Mirror of `Environment::set` rebinds in the current frame when that frame already
contains the name. -/
theorem envSet_found : ∀ (st : St) (fuel e : Nat) (name : String) (v w : Option Nat)
    (f : Environment),
    st.envs[e]? = some f → f.table.lookup name = some w →
    envSet st (fuel + 1) e name v =
      some (setEnvAt st e { f with table := tblInsert f.table name v }) := by
  intro st fuel e name v w f he hl
  simp [envSet, envSetWalk, he, hl]

/-- The walk of `Environment::set` skips a frame that does not contain the
name and continues with its parent: the rebinding frame is the nearest
enclosing one that already contains the name. -/
theorem envSetWalk_parent : ∀ (st : St) (fuel e p : Nat) (name : String) (v : Option Nat)
    (f : Environment),
    st.envs[e]? = some f → f.table.lookup name = none → f.parent = some p →
    envSetWalk st v name (fuel + 1) e = envSetWalk st v name fuel p := by
  intro st fuel e p name v f he hl hp
  simp [envSetWalk, he, hl, hp]

/-- When no frame along the chain contains the name, `Environment::set`
falls back to `put` on the frame it was called on, creating the binding
there. -/
theorem envSet_fallback : ∀ (st : St) (fuel e : Nat) (name : String) (v : Option Nat),
    envSetWalk st v name fuel e = some none →
    envSet st fuel e name v = some (envPut st e name v) := by
  intro st fuel e name v h
  simp [envSet, h]

end Stone

namespace Stone

/-! ## Claim theorems -/

/-- C1 (counterexample): the claim requires `new` to lex as a reserved-word
kind, but the lexer classifies `new` as an ordinary identifier — necessarily
so, since `Parser::parseMemberAccessPostfix` accepts only an `identifier`
token after `.`, which is exactly how `Position.new` parses. -/
theorem new_is_not_a_keyword :
    lexAll "new" 10 =
      .toks [{ kind := .identifier, text := "new".data, line := 1 }, eofTok] := rfl

/-- C1 (amended): lexing, parsing and evaluating the class scenario in a
fresh environment yields Integer 3, and a subsequent evaluation of `p.y`
against the same environment yields Integer 4; `class` and `extends` lex as
their reserved-word kinds (modelled — the provided `Token.def.hpp` omits
their table lines although the parser requires the kinds), while `new` lexes
as an ordinary identifier handled as a member name by
`ClassObject::getMember`. -/
theorem class_scenario_end_to_end :
    runToInt classScenarioSrc 50 = some 3 ∧
    runThenToInt classScenarioSrc "p.y" 50 = some 4 ∧
    lexAll "class extends" 10 =
      .toks [ { kind := .keyword_class, text := "class".data, line := 1 }
            , { kind := .keyword_extends, text := "extends".data, line := 1 }
            , eofTok ] := by
  refine ⟨?_, ?_, rfl⟩
  · unfold runToInt run runOn
    rw [classScenario_lex]
    rfl
  · unfold runThenToInt run runOn
    rw [classScenario_lex, py_lex]
    rfl

/-- C2: lexing, parsing and evaluating the array/string scenario in a fresh
environment yields String "2:three"; the lexer produces string-literal
tokens for quote-delimited text and bracket punctuator tokens (these lexer
rules and the array grammar rules are modelled from the spec — the provided
snapshot lacks them although the AST nodes and their evaluation exist). -/
theorem array_string_scenario_end_to_end :
    runToStr arrayScenarioSrc 30 = some "2:three" ∧
    lexAll "\"three\"" 10 =
      .toks [ { kind := .string, text := "\"three\"".data, line := 1
              , stringValue := "three".data }
            , eofTok ] ∧
    lexAll "[]" 10 =
      .toks [ { kind := .leftBracket, text := "[".data, line := 1 }
            , { kind := .rightBracket, text := "]".data, line := 1 }
            , eofTok ] := by
  refine ⟨?_, rfl, rfl⟩
  unfold runToStr run runOn
  rw [arrayScenario_lex]
  rfl

/-- C3: evaluating `Unary(-, e)` never terminates, for any fuel, operand
and state: `Interpreter::evaluate(UnaryExpressionNode)` reads
`-dispatch(node, env)->asInteger()`, re-dispatching the whole unary node
instead of `node.operand()`, so the recursion never reaches the operand —
contradicting the claim that `Unary(-, Integer(5))` yields Integer(−5). -/
theorem unary_negation_never_terminates :
    ∀ (fuel env : Nat) (operand : Expr) (st : St),
      evalExpr fuel env (.unary .negation operand) st = .hang := by
  intro fuel
  induction fuel with
  | zero => intro env operand st; rfl
  | succ n ih =>
    intro env operand st
    rw [evalExpr]
    rw [ih env operand st]

/-- C4 (counterexample): dividing Integer 1 by Integer 0 is the host's
undefined behavior — a crash, not a raised `EvaluateError` — because the
division case of `Interpreter::evaluate(BinaryExpressionNode)` performs
`asInteger() / asInteger()` with no zero check. -/
theorem division_by_zero_is_crash_not_error :
    evalExpr 3 0 (.binary .division (.integer 1) (.integer 0)) initialSt = .crash := rfl

/-- C4 (amended): for every pair of expressions whose `asInteger` views
evaluate to i and j, `Binary(/, a, b)` and `Binary(%, a, b)` crash with the
host's undefined behavior when j = 0 (not an `EvaluateError`), and when
j ≠ 0 they allocate the truncated quotient/remainder `Int.tdiv i j` /
`Int.tmod i j`, the host's signed-integer semantics. -/
theorem division_modulo_semantics :
    ∀ (fuel env : Nat) (a b : Expr) (st st₁ st₂ : St) (i j : Int),
    evalIntOperand fuel env a st = .ok i st₁ →
    evalIntOperand fuel env b st₁ = .ok j st₂ →
    ((j = 0 →
        evalExpr (fuel + 1) env (.binary .division a b) st = .crash ∧
        evalExpr (fuel + 1) env (.binary .modulo a b) st = .crash) ∧
     (j ≠ 0 →
        evalExpr (fuel + 1) env (.binary .division a b) st = mkInt st₂ (Int.tdiv i j) ∧
        evalExpr (fuel + 1) env (.binary .modulo a b) st = mkInt st₂ (Int.tmod i j))) := by
  intro fuel env a b st st₁ st₂ i j h1 h2
  constructor
  · intro hj
    constructor <;> (simp only [evalExpr, h1, h2]; simp [hj])
  · intro hj
    constructor <;> (simp only [evalExpr, h1, h2]; simp [hj])

/-- C4 (witness): the amended theorem applied to `7 / 0` in the fresh
store, with both operand evaluations discharged by computation. -/
theorem division_modulo_semantics_witness :
    evalExpr 3 0 (.binary .division (.integer 7) (.integer 0)) initialSt = .crash :=
  ((division_modulo_semantics 2 0 (.integer 7) (.integer 0) initialSt
      ⟨[.integerObj 7], [⟨none, []⟩]⟩ ⟨[.integerObj 7, .integerObj 0], [⟨none, []⟩]⟩
      7 0 rfl rfl).1 rfl).1

end Stone

namespace Stone

/-- C5 (counterexample): `Binary(!=, Integer 1, String "1")` raises the
`asInteger` `EvaluateError` instead of yielding Integer 0 by `asString`
comparison — the `notEqual` case tests `left->isInteger() ||
right->isInteger()` (an OR, unlike `equal`'s AND) and so coerces the String
side with `asInteger`. -/
theorem notEqual_int_string_raises :
    evalExpr 3 0 (.binary .notEqual (.integer 1) (.string "1")) initialSt =
      .err "cannot convert to int." := rfl

/-- C5 (amended): the dispatch of the comparison cases of
`Interpreter::evaluate(BinaryExpressionNode)` on the two evaluated operand
values.  `==`: both Integer → numeric; else either String → `asString`
comparison; else (also when exactly one side is an Integer) reference
identity; results are fresh Integer 1/0.  `!=` differs: an Integer on
EITHER side — left or right — forces `asInteger` on both, an
`EvaluateError` whenever the other side is not an Integer; only with no
Integer side does it compare `asString` views (either side String) or
identity (neither). -/
theorem equality_dispatch_semantics :
    (∀ (st : St) (fuel la ra : Nat) (i j : Int),
       st.objs[la]? = some (.integerObj i) → st.objs[ra]? = some (.integerObj j) →
       equalCase fuel (some la) (some ra) st = mkInt st (if i = j then 1 else 0) ∧
       notEqualCase fuel (some la) (some ra) st = mkInt st (if i ≠ j then 1 else 0)) ∧
    (∀ (st : St) (fuel la ra : Nat) (lo ro : Obj) (ls rs : String),
       st.objs[la]? = some lo → st.objs[ra]? = some ro →
       (lo.isInteger && ro.isInteger) = false → (lo.isString || ro.isString) = true →
       objAsString st fuel lo = .ok ls → objAsString st fuel ro = .ok rs →
       equalCase fuel (some la) (some ra) st = mkInt st (if ls = rs then 1 else 0)) ∧
    (∀ (st : St) (fuel la ra : Nat) (lo ro : Obj),
       st.objs[la]? = some lo → st.objs[ra]? = some ro →
       (lo.isInteger && ro.isInteger) = false →
       lo.isString = false → ro.isString = false →
       equalCase fuel (some la) (some ra) st = mkInt st (if la = ra then 1 else 0)) ∧
    (∀ (st : St) (fuel la ra : Nat) (lo ro : Obj),
       st.objs[la]? = some lo → st.objs[ra]? = some ro →
       (lo.isInteger || ro.isInteger) = true → (lo.isInteger && ro.isInteger) = false →
       notEqualCase fuel (some la) (some ra) st = .err "cannot convert to int.") ∧
    (∀ (st : St) (fuel la ra : Nat) (lo ro : Obj) (ls rs : String),
       st.objs[la]? = some lo → st.objs[ra]? = some ro →
       lo.isInteger = false → ro.isInteger = false → (lo.isString || ro.isString) = true →
       objAsString st fuel lo = .ok ls → objAsString st fuel ro = .ok rs →
       notEqualCase fuel (some la) (some ra) st = mkInt st (if ls ≠ rs then 1 else 0)) ∧
    (∀ (st : St) (fuel la ra : Nat) (lo ro : Obj),
       st.objs[la]? = some lo → st.objs[ra]? = some ro →
       lo.isInteger = false → ro.isInteger = false →
       lo.isString = false → ro.isString = false →
       notEqualCase fuel (some la) (some ra) st = mkInt st (if la ≠ ra then 1 else 0)) := by
  refine ⟨?_, ?_, ?_, ?_, ?_, ?_⟩
  · intro st fuel la ra i j hla hra
    constructor
    · simp only [equalCase, derefObj, hla, hra, Res.bind]
    · simp only [notEqualCase, derefObj, hla, hra, Res.bind, Obj.isInteger, Bool.or_self,
        derefAsInteger, objAsInteger]
      simp
  · intro st fuel la ra lo ro ls rs hla hra hint hstr hls hrs
    simp only [equalCase, derefObj, hla, hra, Res.bind, derefAsString]
    cases lo <;> cases ro <;> simp_all [Obj.isInteger, Obj.isString, Res.bind]
  · intro st fuel la ra lo ro hla hra hint h3 h4
    simp only [equalCase, derefObj, hla, hra, Res.bind]
    cases lo <;> cases ro <;> simp_all [Obj.isInteger, Obj.isString]
  · intro st fuel la ra lo ro hla hra hor hand
    simp only [notEqualCase, derefObj, hla, hra, Res.bind, derefAsInteger, objAsInteger]
    cases lo <;> cases ro <;> simp_all [Obj.isInteger, objAsInteger, Res.bind]
  · intro st fuel la ra lo ro ls rs hla hra h1 h2 hstr hls hrs
    simp only [notEqualCase, derefObj, hla, hra, Res.bind, derefAsString]
    cases lo <;> cases ro <;> simp_all [Obj.isInteger, Obj.isString, Res.bind]
  · intro st fuel la ra lo ro hla hra h1 h2 h3 h4
    simp only [notEqualCase, derefObj, hla, hra, Res.bind]
    cases lo <;> cases ro <;> simp_all [Obj.isInteger, Obj.isString]

/-- C5 (witness): the dispatch theorem applied in a concrete store — two
equal Integers compare equal under `==`; `!=` between an Integer and a
function object (the Integer on either side) raises the `asInteger` error
instead of comparing identity; and `==` between that Integer and the
function object falls through to identity, yielding 0. -/
theorem equality_dispatch_semantics_witness :
    equalCase 1 (some 0) (some 1)
        ⟨[.integerObj 2, .integerObj 2, .functionObj [] (.compound []) 0], [⟨none, []⟩]⟩ =
      mkInt ⟨[.integerObj 2, .integerObj 2, .functionObj [] (.compound []) 0], [⟨none, []⟩]⟩
        (if (2 : Int) = 2 then 1 else 0) ∧
    notEqualCase 1 (some 0) (some 2)
        ⟨[.integerObj 2, .integerObj 2, .functionObj [] (.compound []) 0], [⟨none, []⟩]⟩ =
      .err "cannot convert to int." ∧
    notEqualCase 1 (some 2) (some 0)
        ⟨[.integerObj 2, .integerObj 2, .functionObj [] (.compound []) 0], [⟨none, []⟩]⟩ =
      .err "cannot convert to int." ∧
    equalCase 1 (some 0) (some 2)
        ⟨[.integerObj 2, .integerObj 2, .functionObj [] (.compound []) 0], [⟨none, []⟩]⟩ =
      mkInt ⟨[.integerObj 2, .integerObj 2, .functionObj [] (.compound []) 0], [⟨none, []⟩]⟩
        (if (0 : Nat) = 2 then 1 else 0) :=
  ⟨(equality_dispatch_semantics.1
      ⟨[.integerObj 2, .integerObj 2, .functionObj [] (.compound []) 0], [⟨none, []⟩]⟩
      1 0 1 2 2 rfl rfl).1,
   equality_dispatch_semantics.2.2.2.1
      ⟨[.integerObj 2, .integerObj 2, .functionObj [] (.compound []) 0], [⟨none, []⟩]⟩
      1 0 2 (.integerObj 2) (.functionObj [] (.compound []) 0) rfl rfl rfl rfl,
   equality_dispatch_semantics.2.2.2.1
      ⟨[.integerObj 2, .integerObj 2, .functionObj [] (.compound []) 0], [⟨none, []⟩]⟩
      1 2 0 (.functionObj [] (.compound []) 0) (.integerObj 2) rfl rfl rfl rfl,
   equality_dispatch_semantics.2.2.1
      ⟨[.integerObj 2, .integerObj 2, .functionObj [] (.compound []) 0], [⟨none, []⟩]⟩
      1 0 2 (.integerObj 2) (.functionObj [] (.compound []) 0) rfl rfl rfl rfl rfl⟩

/-- C6 (counterexample): an identifier bound nowhere does evaluate to the
null value, but its first use as an if-condition dereferences that null
pointer (`dispatch(condition)->asInteger()`) — the host's undefined
behavior, a crash, not a raised `EvaluateError`. -/
theorem unbound_condition_crashes :
    evalStmt 3 0 (.ifS (.identifier "x") (.compound []) none) initialSt = .crash := rfl

/-- C6 (amended): an unbound identifier evaluates to the null value
(`Environment::get` returns `nullptr`, which `evaluate` passes through),
and the first type-requiring use of that value — an if- or while-condition
or an arithmetic operand, each of which calls `->asInteger()` on it — is a
null-pointer dereference (undefined behavior, a crash), not an
`EvaluateError`. -/
theorem unbound_identifier_null_then_crash :
    (∀ (fuel env : Nat) (name : String) (st : St),
       envGet st fuel env name true = some none →
       evalExpr (fuel + 1) env (.identifier name) st = .ok none st) ∧
    (∀ (fuel env : Nat) (c : Expr) (t : Stmt) (e : Option Stmt) (st st' : St),
       evalExpr fuel env c st = .ok none st' →
       evalStmt (fuel + 1) env (.ifS c t e) st = .crash) ∧
    (∀ (fuel env : Nat) (c : Expr) (b : Stmt) (last : Option Nat) (st st' : St),
       evalExpr fuel env c st = .ok none st' →
       evalWhile (fuel + 1) env c b last st = .crash) ∧
    (∀ (fuel env : Nat) (e : Expr) (st st' : St),
       evalExpr fuel env e st = .ok none st' →
       evalIntOperand (fuel + 1) env e st = .crash) := by
  refine ⟨?_, ?_, ?_, ?_⟩
  · intro fuel env name st h
    simp only [evalExpr, h]
  · intro fuel env c t e st st' h
    simp only [evalStmt, h, derefAsInteger, derefObj, Res.bind]
  · intro fuel env c b last st st' h
    simp only [evalWhile, h, derefAsInteger, derefObj, Res.bind]
  · intro fuel env e st st' h
    simp only [evalIntOperand, h, derefAsInteger, derefObj, Res.bind]

/-- C6 (witness): in the fresh store, `x` is unbound, so it evaluates to
null, and the if-statement on it crashes. -/
theorem unbound_identifier_null_then_crash_witness :
    evalExpr 2 0 (.identifier "x") initialSt = .ok none initialSt ∧
    evalStmt 3 0 (.ifS (.identifier "x") (.compound []) none) initialSt = .crash :=
  ⟨unbound_identifier_null_then_crash.1 1 0 "x" initialSt rfl,
   unbound_identifier_null_then_crash.2.1 2 0 (.identifier "x") (.compound []) none
     initialSt initialSt rfl⟩

/-- C7: the environment-chain operations.  `get` returns a current-frame
entry directly, defers to the parent chain when recursive, and returns the
null value when the name is absent with no parent to consult; `put` binds
in the current frame unconditionally (visible to a subsequent `get`) and
touches no other frame; `set` rebinds in the current frame when it already
contains the name, its walk otherwise continues with the parent (so the
nearest enclosing frame containing the name is the one rebound), and when
no frame on the chain contains the name it falls back to `put` on the
frame it started from. -/
theorem environment_operations_spec :
    (∀ (st : St) (fuel e : Nat) (name : String) (recursive : Bool)
       (f : Environment) (v : Option Nat),
       st.envs[e]? = some f → f.table.lookup name = some v →
       envGet st (fuel + 1) e name recursive = some v) ∧
    (∀ (st : St) (fuel e p : Nat) (name : String) (f : Environment),
       st.envs[e]? = some f → f.table.lookup name = none → f.parent = some p →
       envGet st (fuel + 1) e name true = envGet st fuel p name true) ∧
    (∀ (st : St) (fuel e : Nat) (name : String) (recursive : Bool) (f : Environment),
       st.envs[e]? = some f → f.table.lookup name = none →
       (f.parent = none ∨ recursive = false) →
       envGet st (fuel + 1) e name recursive = some none) ∧
    (∀ (st : St) (fuel e : Nat) (name : String) (recursive : Bool)
       (f : Environment) (v : Option Nat),
       st.envs[e]? = some f →
       envGet (envPut st e name v) (fuel + 1) e name recursive = some v) ∧
    (∀ (st : St) (e e' : Nat) (name : String) (v : Option Nat),
       e' ≠ e → (envPut st e name v).envs[e']? = st.envs[e']?) ∧
    (∀ (st : St) (fuel e : Nat) (name : String) (v w : Option Nat) (f : Environment),
       st.envs[e]? = some f → f.table.lookup name = some w →
       envSet st (fuel + 1) e name v =
         some (setEnvAt st e { f with table := tblInsert f.table name v })) ∧
    (∀ (st : St) (fuel e p : Nat) (name : String) (v : Option Nat) (f : Environment),
       st.envs[e]? = some f → f.table.lookup name = none → f.parent = some p →
       envSetWalk st v name (fuel + 1) e = envSetWalk st v name fuel p) ∧
    (∀ (st : St) (fuel e : Nat) (name : String) (v : Option Nat),
       envSetWalk st v name fuel e = some none →
       envSet st fuel e name v = some (envPut st e name v)) :=
  ⟨envGet_found, envGet_parent, envGet_absent, envPut_get, envPut_other_frames,
   envSet_found, envSetWalk_parent, envSet_fallback⟩

/-- C7 (witness): the operations applied in a tiny two-frame store — a
lookup finds the binding in the frame's table, and after a `put` the new
value is read back. -/
theorem environment_operations_spec_witness :
    envGet ⟨[], [⟨none, [("x", some 3)]⟩]⟩ 1 0 "x" true = some (some 3) ∧
    envGet (envPut ⟨[], [⟨none, []⟩]⟩ 0 "y" (some 5)) 1 0 "y" true = some (some 5) :=
  ⟨environment_operations_spec.1 ⟨[], [⟨none, [("x", some 3)]⟩]⟩ 0 0 "x" true
     ⟨none, [("x", some 3)]⟩ (some 3) rfl rfl,
   environment_operations_spec.2.2.2.1 ⟨[], [⟨none, []⟩]⟩ 0 0 "y" true
     ⟨none, []⟩ (some 5) rfl⟩

end Stone

namespace Stone

/-- C8: parser grouping.  For operators of the table with
`prec op₁ > prec op₂`, the parse of `a op₂ b op₁ c` groups as
`a op₂ (b op₁ c)`; for equal-precedence left-associative operators it is
left-nested, `(a op₂ b) op₁ c`; and `a = b = c` parses right-associatively
as `a = (b = c)`. -/
theorem parser_precedence_grouping :
    (∀ op₁ op₂ : BinaryOperator, opPrec op₁ > opPrec op₂ →
       parseExpression 30 [identTok "a", opTok op₂, identTok "b", opTok op₁,
           identTok "c", eofTok]
         = .ok (.binary op₂ (.identifier "a")
                 (.binary op₁ (.identifier "b") (.identifier "c")), [eofTok])) ∧
    (∀ op₁ op₂ : BinaryOperator, opPrec op₁ = opPrec op₂ →
       opAssoc op₁ = false → opAssoc op₂ = false →
       parseExpression 30 [identTok "a", opTok op₂, identTok "b", opTok op₁,
           identTok "c", eofTok]
         = .ok (.binary op₁ (.binary op₂ (.identifier "a") (.identifier "b"))
                 (.identifier "c"), [eofTok])) ∧
    parseExpression 30 [identTok "a", opTok .assign, identTok "b", opTok .assign,
        identTok "c", eofTok]
      = .ok (.binary .assign (.identifier "a")
              (.binary .assign (.identifier "b") (.identifier "c")), [eofTok]) := by
  refine ⟨?_, ?_, rfl⟩
  · intro op₁ op₂ h
    cases op₁ <;> cases op₂ <;> first | rfl | exact absurd h (by decide)
  · intro op₁ op₂ h h₁ h₂
    cases op₁ <;> cases op₂ <;>
      first
      | rfl
      | exact absurd h (by decide)
      | exact absurd h₁ (by decide)

/-- C8 (witness): the grouping theorem applied to `*` over `+` (higher
precedence binds on the right) and to `+` with `-` (equal precedence,
left-nested). -/
theorem parser_precedence_grouping_witness :
    parseExpression 30 [identTok "a", opTok .addition, identTok "b",
        opTok .multiplication, identTok "c", eofTok]
      = .ok (.binary .addition (.identifier "a")
              (.binary .multiplication (.identifier "b") (.identifier "c")), [eofTok]) ∧
    parseExpression 30 [identTok "a", opTok .addition, identTok "b",
        opTok .subtraction, identTok "c", eofTok]
      = .ok (.binary .subtraction (.binary .addition (.identifier "a") (.identifier "b"))
              (.identifier "c"), [eofTok]) :=
  ⟨parser_precedence_grouping.1 .multiplication .addition (by decide),
   parser_precedence_grouping.2.1 .subtraction .addition (by decide) (by decide) (by decide)⟩

/-- C9: lexing, parsing and evaluating the closure-counter scenario in a
fresh environment yields Integer 5 — the closure returned by `counter()`
captures the call's environment by reference, so all five invocations
increment the same `cnt` binding. -/
theorem closure_counter_end_to_end : runToInt counterScenarioSrc 50 = some 5 := by
  simp only [runToInt, run, runOn, counterScenario_lex, counterScenario_parse,
    counterScenario_eval]
  rfl

/-- C10: on a source whose final line is a `//` comment with no terminating
newline, `Lexer::read` never terminates for any fuel (the comment loop
tests only for `'\n'`, never for the end of input, and runs off the
buffer) — while on genuinely exhausted input the lexer does return the
end-of-file token at an unchanged position on every subsequent call. -/
theorem lexer_comment_runaway_and_eof :
    (∀ fuel, lexRead trailingCommentSrc.data fuel 0 1 = .hang) ∧
    (∀ fuel, lexRead "x".data fuel 1 1 =
       .tok { kind := .endOfFile, text := "[EOF]".data, line := 1 } 1 1) := by
  constructor
  · intro fuel
    have h := skipLineComment_none trailingCommentSrc.data (by decide) fuel 2
    simp only [lexRead]
    rw [show scanWhile isSpace trailingCommentSrc.data
          (trailingCommentSrc.data.length + 1) 0 = 0 from rfl]
    rw [show isPrefixAt "//".data trailingCommentSrc.data 0 = true from rfl]
    simp only [if_true, h]
  · intro fuel
    rfl

end Stone
